import Mathlib

/-!
# KioskBrowser: the watchdog, the event handlers and the option table of `browser.c`

A shallow embedding of `src/browser.c`.  The program is a set of callbacks over
process-wide globals.  Each callback is a function from the globals to the new
globals, the list of calls it makes into the toolkit and the web engine (in
program order) and its `gboolean` result.  The event loop is a step function on
the globals together with the outstanding session clears and one-shot timers.

`unsigned int` values are natural numbers; arithmetic on them is reduced modulo
`2 ^ 32` where the C code can wrap.
-/

namespace KioskBrowser

/-! ## Machine integers -/

/-- Number of values of a C `unsigned int`. -/
def UINT_MOD : Nat := 4294967296

/-- Conversion of an `int` to `unsigned int`. -/
def toUInt (n : Int) : Nat := (n % 4294967296).toNat

/-- Subtraction on `unsigned int`. -/
def usub (a b : Nat) : Nat := (a + UINT_MOD - b % UINT_MOD) % UINT_MOD

/-- Increment on `unsigned int`. -/
def uinc (a : Nat) : Nat := (a + 1) % UINT_MOD

/-! ## Handles and calls into the libraries -/

/-- Value of the global `cursor`: `NULL` until `main` creates the blank cursor. -/
inductive Cursor where
  | null
  | blank
deriving DecidableEq, Repr

/-- The surface `gtk_widget_get_window(GTK_WIDGET(w))` of one of the two widgets. -/
inductive Surface where
  | mainWindow
  | webView
deriving DecidableEq, Repr

/-- One call into GTK, WebKit or the C library, with the arguments that matter. -/
inductive Effect where
  /-- Call `webkit_web_view_load_uri(webView, uri)`. -/
  | load_uri (uri : String)
  /-- Call `webkit_website_data_manager_clear(.., WEBKIT_WEBSITE_DATA_ALL, 0, NULL,
  websiteDataManagerClearCompleted, strdup(uri))`. -/
  | data_manager_clear (user_data : String)
  /-- Call `g_timeout_add(interval, reload_timer, strdup(uri))`. -/
  | timeout_add_reload (interval : Nat) (user_data : String)
  /-- Call `gdk_window_set_cursor(surface, cursor)`. -/
  | set_cursor (surface : Surface) (cursor : Cursor)
  | permission_request_allow
  | permission_request_deny
  | window_fullscreen
  | window_set_decorated (b : Bool)
  | window_set_modal (b : Bool)
  | window_set_keep_above (b : Bool)
  | window_set_accept_focus (b : Bool)
  | window_set_focus_on_map (b : Bool)
  | window_stick
  | window_present
  | window_set_title (title : String)
  | print_stdout (text : String)
  | print_stderr (text : String)
deriving DecidableEq, Repr

/-- A call that starts a page load or a session clear. -/
def Effect.isSessionStart : Effect → Bool
  | .load_uri _ => true
  | .data_manager_clear _ => true
  | _ => false

/-- A call that applies a cursor to a surface. -/
def Effect.isSetCursor : Effect → Bool
  | .set_cursor _ _ => true
  | _ => false

/-! ## The globals (lines 40-59) -/

/-- The process-wide variables of `browser.c`. -/
structure Globals where
  cursor : Cursor
  kiosk : Nat
  ignoreCertificate : Nat
  acceptAll : Nat
  hideMouse : Nat
  watchdogTimeout : Nat
  watchdogValue : Nat
  watchdogReset : Nat
  reduceCache : Nat
  debug : Nat
  ephemeralMode : Nat
  watchdogRunning : Nat
  baseUri : String
  baseDir : String
deriving DecidableEq, Repr

/-- The static initialisers. -/
def initialGlobals : Globals where
  cursor := Cursor.null
  kiosk := 0
  ignoreCertificate := 0
  acceptAll := 0
  hideMouse := 0
  watchdogTimeout := 0
  watchdogValue := 0
  watchdogReset := 0
  reduceCache := 0
  debug := 0
  ephemeralMode := 0
  watchdogRunning := 1
  baseUri := "http://127.0.0.1"
  baseDir := "/tmp/kiosk"

/-- What a callback leaves behind: the globals, the calls made, the returned value. -/
structure Out (α : Type) where
  g : Globals
  calls : List Effect
  val : α

/-! ## Session control (lines 94-126) -/

/-- Source: `websiteDataManagerClearCompleted`, with `user_data` the duplicated URI. -/
def websiteDataManagerClearCompleted (user_data : String) (g : Globals) : Out Unit :=
  let uri := user_data
  let c1 := if g.debug ≠ 0 then [Effect.print_stdout "Session cleaned\n"] else []
  let g1 := { g with watchdogRunning := 1 }
  { g := g1, calls := c1 ++ [Effect.load_uri uri], val := () }

/-- Source: `startNewSession`. -/
def startNewSession (uri : String) (reset : Nat) (g : Globals) : Out Unit :=
  if reset ≠ 0 then
    let c1 := if g.debug ≠ 0 then [Effect.print_stdout "Starting to clean session\n"] else []
    let g1 := { g with watchdogRunning := 0 }
    { g := g1, calls := c1 ++ [Effect.data_manager_clear uri], val := () }
  else
    { g := g, calls := [Effect.load_uri uri], val := () }

/-! ## Window and view callbacks (lines 128-257) -/

/-- Source: `on_window_changed`, connected to `realize` and `configure-event` of the
main window. -/
def on_window_changed (g : Globals) : Out Bool :=
  let c1 :=
    if g.kiosk ≠ 0 then
      [Effect.window_fullscreen, Effect.window_set_decorated false,
       Effect.window_set_modal true, Effect.window_set_keep_above true,
       Effect.window_set_accept_focus true, Effect.window_set_focus_on_map true,
       Effect.window_stick]
    else []
  let c2 := if g.hideMouse ≠ 0 then [Effect.set_cursor Surface.mainWindow g.cursor] else []
  { g := g, calls := c1 ++ c2, val := false }

/-- Source: `on_permission_request`. -/
def on_permission_request (g : Globals) : Out Bool :=
  if g.kiosk ≠ 0 then
    if g.acceptAll ≠ 0 then
      { g := g, calls := [Effect.permission_request_allow], val := true }
    else
      { g := g, calls := [Effect.permission_request_deny], val := true }
  else
    { g := g, calls := [], val := false }

/-- Source: `reload_timer`, with `user_data` the duplicated failing URI. -/
def reload_timer (user_data : String) (g : Globals) : Out Bool :=
  let failing_uri := user_data
  { g := g, calls := [Effect.load_uri failing_uri], val := false }

/-- The interval `2500 + rand()%5000` as `g_timeout_add` receives it; `r` is the `int`
that `rand()` returned, `%` truncates as in C, and the `int` sum converts to `guint`. -/
def reload_interval (r : Int) : Nat := toUInt (2500 + Int.tmod r 5000)

/-- Source: `on_load_failed`; `r` is the value that `rand()` returns in this call. -/
def on_load_failed (failing_uri : String) (r : Int) (g : Globals) : Out Bool :=
  { g := g,
    calls := [Effect.print_stderr ("Load failed. Reloading " ++ failing_uri ++ "\n"),
              Effect.timeout_add_reload (reload_interval r) failing_uri],
    val := true }

/-- Source: `on_load_failed_tls`. -/
def on_load_failed_tls (failing_uri : String) (g : Globals) : Out Bool :=
  { g := g,
    calls := [Effect.print_stderr ("TLS certificate error for " ++ failing_uri ++ "\n")],
    val := false }

/-- Source: `on_context_menu`. -/
def on_context_menu (g : Globals) : Out Bool :=
  if g.kiosk ≠ 0 then { g := g, calls := [], val := true }
  else { g := g, calls := [], val := false }

/-- Source: `on_print`. -/
def on_print (g : Globals) : Out Bool :=
  if g.kiosk ≠ 0 then { g := g, calls := [], val := true }
  else { g := g, calls := [], val := false }

/-- Source: `on_dialog`; `message` is `webkit_script_dialog_get_message(dialog)`. -/
def on_dialog (message : String) (g : Globals) : Out Bool :=
  if g.kiosk ≠ 0 then
    let c1 :=
      if g.debug ≠ 0 then
        [Effect.print_stdout ("Page requested to show a dialog: " ++ message ++ "\n")]
      else []
    { g := g, calls := c1, val := true }
  else
    { g := g, calls := [], val := false }

/-- Source: `on_notification`, with the title and body of the notification. -/
def on_notification (title body : String) (g : Globals) : Out Bool :=
  if g.kiosk ≠ 0 then
    let c1 :=
      if g.debug ≠ 0 then
        [Effect.print_stdout
          ("Page requested to show a notification: " ++ title ++ " -> " ++ body ++ "\n")]
      else []
    { g := g, calls := c1, val := true }
  else
    { g := g, calls := [], val := false }

/-- Source: `periodic_check`.  `active` is what `gtk_window_is_active(mainWindow)`
returns in this call and `title` what `webkit_web_view_get_title(webView)` returns. -/
def periodic_check (active : Bool) (title : String) (g : Globals) : Out Bool :=
  -- Manage watchdog
  let w : Out Unit :=
    if g.watchdogTimeout ≠ 0 ∧ g.watchdogRunning ≠ 0 then
      if g.watchdogValue ≥ usub g.watchdogTimeout 1 then
        let o := startNewSession g.baseUri g.watchdogReset g
        { g := { o.g with watchdogValue := 0 },
          calls := Effect.print_stderr "Watchdog timeout\n" :: o.calls, val := () }
      else
        { g := { g with watchdogValue := uinc g.watchdogValue }, calls := [], val := () }
    else
      { g := g, calls := [], val := () }
  let g1 := w.g
  -- Hide the mouse in the webview as well
  let c2 := if g1.hideMouse ≠ 0 then [Effect.set_cursor Surface.webView g1.cursor] else []
  -- Present the window in case it is not active
  let c3 :=
    if g1.kiosk ≠ 0 ∧ active = false then
      (if g1.debug ≠ 0 then
        [Effect.print_stdout "Window not active. Trying to present it.\n"] else [])
        ++ [Effect.window_present]
    else []
  -- Set the webview title as window title
  let c4 := [Effect.window_set_title title]
  { g := g1, calls := w.calls ++ c2 ++ c3 ++ c4, val := true }

/-- Source: `on_resource_load`; `resource_uri` is `webkit_web_resource_get_uri(resource)`. -/
def on_resource_load (resource_uri : String) (g : Globals) : Out Unit :=
  let c1 :=
    if g.debug ≠ 0 then [Effect.print_stdout ("Loading resource: " ++ resource_uri ++ "\n")]
    else []
  { g := { g with watchdogValue := 0 }, calls := c1, val := () }

/-- Source: `on_load_changed`; `finished` says whether the event is `WEBKIT_LOAD_FINISHED`. -/
def on_load_changed (finished : Bool) (g : Globals) : Out Unit :=
  let c1 :=
    if g.debug ≠ 0 ∧ finished = true then [Effect.print_stdout "Page load completed\n"] else []
  { g := g, calls := c1, val := () }

/-! ## Option processing and start-up (lines 61-92, 259-400) -/

/-- How the process ends before the event loop runs. -/
inductive Termination where
  /-- Call `exit(status)` after printing `printed`. -/
  | exit (status : Nat) (printed : List Effect)
  /-- Call `abort()`. -/
  | abort
deriving DecidableEq, Repr

/-- Source: `usage`, the lines it prints before `exit(0)`. -/
def usage_lines : List String :=
  ["-w, --watchdog [timeout]:      Reload page if no requests done for timeout seconds\n",
   "-r, --watchdog-reset:          Clear state on watchdog trigger\n",
   "-k, --kiosk:                   Run in kiosk mode\n",
   "-a, --accept-all:              Accept all permission requests in kiosk mode\n",
   "-d, --debug:                   Output debug info\n",
   "-m, --hide-mouse:              Hide the mouse cursor\n",
   "-u, --uri [uri]:               The URI to show\n",
   "-i, --ignore-cert:             Ignore certificate errors\n",
   "-e, --ephemeral:               Use ephemeral mode\n",
   "-b, --base-dir [path]:         Store persistent files in this directory\n",
   "-c, --nocache:                 Disable cache\n",
   "-h, --help:                    Show this help\n"]

/-- Source: `usage`. -/
def usage : Termination :=
  Termination.exit 0 (usage_lines.map Effect.print_stdout)

/-- Model of the C library function `atoi`: optional white space, an optional sign,
then decimal digits up to the first other character. -/
def atoi (s : String) : Int :=
  let cs := s.toList.dropWhile Char.isWhitespace
  let signed : Bool × List Char :=
    match cs with
    | '-' :: rest => (true, rest)
    | '+' :: rest => (false, rest)
    | rest => (false, rest)
  let n : Nat := (signed.2.takeWhile Char.isDigit).foldl (fun acc c => acc * 10 + (c.toNat - 48)) 0
  if signed.1 then -(n : Int) else (n : Int)

/-- One return of `getopt_long`: the returned option character (`0`, an option
letter or `?`) and the value of `optarg` at that point. -/
structure GetoptResult where
  c : Char
  optarg : String
deriving DecidableEq, Repr

/-- Source: the `switch (c)` of `main`. -/
def main_switch (r : GetoptResult) (g : Globals) : Except Termination Globals :=
  if r.c = Char.ofNat 0 then .ok g
  else if r.c = 'b' then .ok { g with baseDir := r.optarg }
  else if r.c = 'r' then .ok { g with watchdogReset := 1 }
  else if r.c = 'e' then .ok { g with ephemeralMode := 1 }
  else if r.c = 'c' then .ok { g with reduceCache := 1 }
  else if r.c = 'a' then .ok { g with acceptAll := 1 }
  else if r.c = 'k' then .ok { g with kiosk := 1 }
  else if r.c = 'm' then .ok { g with hideMouse := 1 }
  else if r.c = 'd' then .ok { g with debug := 1 }
  else if r.c = 'u' then .ok { g with baseUri := r.optarg }
  else if r.c = 'w' then .ok { g with watchdogTimeout := toUInt (atoi r.optarg) }
  else if r.c = 'i' then .ok { g with ignoreCertificate := 1 }
  else if r.c = 'h' ∨ r.c = '?' then .error usage
  else .error Termination.abort

/-- Source: the `while(1)` loop of `main`, over the successive returns of
`getopt_long` up to the final `-1`. -/
def main_options : List GetoptResult → Globals → Except Termination Globals
  | [], g => .ok g
  | r :: rs, g =>
    match main_switch r g with
    | .ok g1 => main_options rs g1
    | .error t => .error t

/-- The program between events: the globals, the session clears and the one-shot
reload timers that are outstanding (each with the `user_data` of its callback),
and every call made so far, oldest first. -/
structure Sys where
  g : Globals
  clears : List String
  timers : List String
  trace : List Effect
deriving DecidableEq, Repr

/-- The `user_data` of the session clears that a list of calls starts. -/
def clearsOf : List Effect → List String
  | [] => []
  | Effect.data_manager_clear u :: es => u :: clearsOf es
  | _ :: es => clearsOf es

/-- The `user_data` of the one-shot timers that a list of calls schedules. -/
def timersOf : List Effect → List String
  | [] => []
  | Effect.timeout_add_reload _ u :: es => u :: timersOf es
  | _ :: es => timersOf es

/-- State after a callback has run: its calls are appended to the trace and the
operations it started become outstanding. -/
def Sys.after {α : Type} (s : Sys) (o : Out α) : Sys :=
  { g := o.g,
    clears := s.clears ++ clearsOf o.calls,
    timers := s.timers ++ timersOf o.calls,
    trace := s.trace ++ o.calls }

/-- Source: `main`, from the returns of `getopt_long` to the entry of `gtk_main`.
The construction of the window, the web context, the view and its settings and the
signal registrations (lines 325-389, 395) touch no global but the handles and are
left out; the periodic timer of line 397 is the `tick` event of `step`. -/
def main (results : List GetoptResult) : Except Termination Sys :=
  match main_options results initialGlobals with
  | .error t => .error t
  | .ok g =>
    let g1 := if g.watchdogTimeout = 1 then { g with watchdogTimeout := 2 } else g
    if g1.acceptAll ≠ 0 ∧ g1.kiosk = 0 then
      .error (Termination.exit 0
        [Effect.print_stderr "Accept all only makes sense in kiosk mode\n"])
    else
      let o := startNewSession g1.baseUri 0 g1
      let s1 := Sys.after { g := g1, clears := [], timers := [], trace := [] } o
      .ok { s1 with g := { s1.g with cursor := Cursor.blank } }

/-! ## The event loop -/

/-- What the main loop can dispatch after start-up. -/
inductive Event where
  /-- The 1000 ms timer runs `periodic_check`. -/
  | tick (active : Bool) (title : String)
  /-- Signal `resource-load-started`. -/
  | resource_load (resource_uri : String)
  /-- Signal `load-failed`; `r` is the value `rand()` returns in the handler. -/
  | load_failed (failing_uri : String) (r : Nat)
  /-- The outstanding one-shot timer number `i` expires. -/
  | reload_timer (i : Nat)
  /-- The engine completes the outstanding session clear number `i`. -/
  | clear_completed (i : Nat)
  /-- Signal `permission-request`. -/
  | permission_request
  /-- Signals `realize` and `configure-event` of the main window. -/
  | window_changed
  /-- Signal `load-failed-with-tls-errors`. -/
  | load_failed_tls (failing_uri : String)
  /-- Signal `context-menu`. -/
  | context_menu
  /-- Signal `print`. -/
  | print_signal
  /-- Signal `script-dialog`. -/
  | script_dialog (message : String)
  /-- Signal `show-notification`. -/
  | show_notification (title body : String)
  /-- Signal `load-changed`. -/
  | load_changed (finished : Bool)
deriving DecidableEq, Repr

/-- One dispatch of the main loop; `none` when the event cannot occur (no such
outstanding timer or clear). -/
def step (s : Sys) : Event → Option Sys
  | .tick active title => some (s.after (periodic_check active title s.g))
  | .resource_load u => some (s.after (on_resource_load u s.g))
  | .load_failed u r => some (s.after (on_load_failed u (r : Int) s.g))
  | .reload_timer i =>
    match s.timers[i]? with
    | none => none
    | some u =>
      let o := reload_timer u s.g
      let s1 := if o.val then s else { s with timers := s.timers.eraseIdx i }
      some (s1.after o)
  | .clear_completed i =>
    match s.clears[i]? with
    | none => none
    | some u =>
      let s1 := { s with clears := s.clears.eraseIdx i }
      some (s1.after (websiteDataManagerClearCompleted u s.g))
  | .permission_request => some (s.after (on_permission_request s.g))
  | .window_changed => some (s.after (on_window_changed s.g))
  | .load_failed_tls u => some (s.after (on_load_failed_tls u s.g))
  | .context_menu => some (s.after (on_context_menu s.g))
  | .print_signal => some (s.after (on_print s.g))
  | .script_dialog m => some (s.after (on_dialog m s.g))
  | .show_notification t b => some (s.after (on_notification t b s.g))
  | .load_changed f => some (s.after (on_load_changed f s.g))

/-- A sequence of dispatches. -/
def run (s : Sys) : List Event → Option Sys
  | [] => some s
  | e :: es =>
    match step s e with
    | none => none
    | some s1 => run s1 es

/-- The line `periodic_check` prints when the watchdog expires. -/
def watchdogLine : Effect := Effect.print_stderr "Watchdog timeout\n"

/-- Number of watchdog expiries recorded in a list of calls. -/
def fires (calls : List Effect) : Nat := calls.count watchdogLine

/-- The calls of a list that start a page load or a session clear. -/
def sessionStarts (calls : List Effect) : List Effect := calls.filter Effect.isSessionStart

/-- The call by which `startNewSession(uri, reset)` starts the session. -/
def sessionStartCall (uri : String) (reset : Nat) : Effect :=
  if reset ≠ 0 then Effect.data_manager_clear uri else Effect.load_uri uri

/-- Number of `tick` events in a sequence. -/
def ticks : List Event → Nat
  | [] => 0
  | Event.tick _ _ :: es => ticks es + 1
  | _ :: es => ticks es

/-- Whether an event is a `resource-load-started` signal. -/
def Event.isResourceLoad : Event → Bool
  | .resource_load _ => true
  | _ => false

/-! ## The option table (lines 61-75, 265) -/

/-- The `has_arg` field of a `struct option`. -/
inductive HasArg where
  | no_argument
  | required_argument
deriving DecidableEq, Repr

/-- A `struct option` whose `flag` field is `0`: `getopt_long` returns `val`. -/
structure LongOption where
  name : String
  has_arg : HasArg
  val : Char
deriving DecidableEq, Repr

/-- Source: the array `long_options`, without its terminating zero entry. -/
def long_options : List LongOption :=
  [⟨"watchdog", HasArg.required_argument, 'w'⟩,
   ⟨"watchdog-reset", HasArg.no_argument, 'r'⟩,
   ⟨"ephemeral", HasArg.no_argument, 'e'⟩,
   ⟨"kiosk", HasArg.no_argument, 'k'⟩,
   ⟨"base-dir", HasArg.required_argument, 'b'⟩,
   ⟨"debug", HasArg.no_argument, 'd'⟩,
   ⟨"accept-all", HasArg.no_argument, 'a'⟩,
   ⟨"ignore-cert", HasArg.no_argument, 'i'⟩,
   ⟨"hide-mouse", HasArg.no_argument, 'm'⟩,
   ⟨"uri", HasArg.required_argument, 'u'⟩,
   ⟨"nocache", HasArg.required_argument, 'c'⟩,
   ⟨"help", HasArg.no_argument, 'h'⟩]

/-- Source: the short option string passed to `getopt_long` in `main`. -/
def optstring : String := "hiw:mu:adckb:er"

/-- How `getopt` reads an option string: a letter followed by a colon takes an
argument, a letter alone takes none, a letter not listed is unknown. -/
def shortHasArg : List Char → Char → Option HasArg
  | [], _ => none
  | c :: rest, x =>
    if c = x ∧ c ≠ ':' then
      (if rest.head? = some ':' then some HasArg.required_argument
       else some HasArg.no_argument)
    else shortHasArg rest x

/-- The entry of a table with exactly this name. -/
def findLong (table : List LongOption) (name : String) : Option LongOption :=
  table.find? (fun o => o.name = name)

/-- Model of `getopt_long` on one cluster of short options (the characters after
the dash): the results, and the option letter that still waits for its argument in
the next element of `argv`. -/
def getopt_cluster : List Char → List GetoptResult × Option Char
  | [] => ([], none)
  | c :: cs =>
    match shortHasArg optstring.toList c with
    | none => ((⟨'?', ""⟩ : GetoptResult) :: (getopt_cluster cs).1, (getopt_cluster cs).2)
    | some HasArg.no_argument =>
      ((⟨c, ""⟩ : GetoptResult) :: (getopt_cluster cs).1, (getopt_cluster cs).2)
    | some HasArg.required_argument =>
      if cs = [] then ([], some c) else ([⟨c, String.mk cs⟩], none)

/-- Model of `getopt_long` on one element of `argv` that names a long option by its
full name (the characters after the two dashes), with or without `=value`. -/
def getopt_long_name (body : List Char) : List GetoptResult × Option Char :=
  let name := String.mk (body.takeWhile (fun c => c ≠ '='))
  let value := (body.dropWhile (fun c => c ≠ '=')).drop 1
  let hasValue := body.any (fun c => c = '=')
  match findLong long_options name with
  | none => ([⟨'?', ""⟩], none)
  | some o =>
    match o.has_arg with
    | HasArg.no_argument => if hasValue then ([⟨'?', ""⟩], none) else ([⟨o.val, ""⟩], none)
    | HasArg.required_argument =>
      if hasValue then ([⟨o.val, String.mk value⟩], none) else ([], some o.val)

/-- Model of the successive returns of `getopt_long(argc, argv, optstring,
long_options, ..)` with `opterr = 0`, for an `argv` (without the program name) that
writes long options by their full names: `pending` is the option that takes the
next element as its argument.  Elements that are no options are passed over, `--`
ends the options, and a missing argument or an unknown option gives `?`. -/
def getopt_long : Option Char → List String → List GetoptResult
  | some _, [] => [⟨'?', ""⟩]
  | some c, v :: rest => ⟨c, v⟩ :: getopt_long none rest
  | none, [] => []
  | none, arg :: rest =>
    match arg.toList with
    | ['-', '-'] => []
    | '-' :: '-' :: body =>
      (getopt_long_name body).1 ++ getopt_long (getopt_long_name body).2 rest
    | ['-'] => getopt_long none rest
    | '-' :: cs => (getopt_cluster cs).1 ++ getopt_long (getopt_cluster cs).2 rest
    | _ => getopt_long none rest

/-! ## Views used in the proofs -/

/-- The watchdog block of `periodic_check` (lines 215-223) on its own. -/
def watchdog_block (g : Globals) : Out Unit :=
  if g.watchdogTimeout ≠ 0 ∧ g.watchdogRunning ≠ 0 then
    if g.watchdogValue ≥ usub g.watchdogTimeout 1 then
      let o := startNewSession g.baseUri g.watchdogReset g
      { g := { o.g with watchdogValue := 0 },
        calls := Effect.print_stderr "Watchdog timeout\n" :: o.calls, val := () }
    else
      { g := { g with watchdogValue := uinc g.watchdogValue }, calls := [], val := () }
  else
    { g := g, calls := [], val := () }

/-- The calls of `periodic_check` after the watchdog block (lines 226-239). -/
def tick_rest (active : Bool) (title : String) (g1 : Globals) : List Effect :=
  (if g1.hideMouse ≠ 0 then [Effect.set_cursor Surface.webView g1.cursor] else []) ++
  (if g1.kiosk ≠ 0 ∧ active = false then
      (if g1.debug ≠ 0 then
        [Effect.print_stdout "Window not active. Trying to present it.\n"] else [])
        ++ [Effect.window_present]
    else []) ++
  [Effect.window_set_title title]

/-- The settings of a run: the globals with the two watchdog variables blanked. -/
def Globals.config (g : Globals) : Globals :=
  { g with watchdogValue := 0, watchdogRunning := 0 }

/-- A list of calls that starts no session clear and records no watchdog expiry. -/
def Quiet (calls : List Effect) : Prop :=
  clearsOf calls = [] ∧ fires calls = 0

/-- Events whose handlers leave every global alone and start no session clear. -/
def Event.isPassive : Event → Bool
  | .tick _ _ => false
  | .resource_load _ => false
  | .clear_completed _ => false
  | _ => true

/-- What holds of every state the program reaches: the watchdog is suspended exactly
while a session clear is outstanding, at most one is, the counter stays below the
timeout, and the cursor is the blank one. -/
structure Sound (s : Sys) : Prop where
  suspended_iff : s.g.watchdogRunning = 0 ↔ s.clears ≠ []
  one_clear : s.clears.length ≤ 1
  timeout_lt : s.g.watchdogTimeout < UINT_MOD
  value_le : s.g.watchdogValue ≤ s.g.watchdogTimeout - 1
  cursor_blank : s.g.cursor = Cursor.blank

/-- The calls of a tick trigger a session start: they begin with the watchdog line
followed by the calls of `startNewSession(uri, reset)`, and what follows starts no
load and no clear. -/
def Triggers (calls : List Effect) (uri : String) (reset : Nat) (g : Globals) : Prop :=
  ∃ rest, calls = watchdogLine :: ((startNewSession uri reset g).calls ++ rest) ∧
    sessionStarts rest = [] ∧ fires rest = 0

/-- The tick event with the given window state and page title. -/
def tickOf (env : Bool × String) : Event := Event.tick env.1 env.2

/-- The calls of a list that apply a cursor. -/
def cursorCalls (calls : List Effect) : List Effect := calls.filter Effect.isSetCursor

/-! ## Machine arithmetic -/

theorem usub_lt (a b : Nat) : usub a b < UINT_MOD := by
  unfold usub UINT_MOD; omega

theorem usub_one {T : Nat} (h1 : 1 ≤ T) (h2 : T < UINT_MOD) : usub T 1 = T - 1 := by
  unfold usub UINT_MOD at *; omega

theorem uinc_of_lt_usub {v T : Nat} (h : v < usub T 1) : uinc v = v + 1 := by
  unfold uinc usub UINT_MOD at *; omega

theorem toUInt_lt (n : Int) : toUInt n < UINT_MOD := by
  unfold toUInt UINT_MOD; omega

theorem reload_interval_eq (r : Int) (hr : 0 ≤ r) :
    reload_interval r = 2500 + r.toNat % 5000 := by
  unfold reload_interval toUInt
  rw [Int.tmod_eq_emod hr (by norm_num)]
  omega

/-! ## The lines written to standard error -/

theorem load_failed_line_ne (u : String) :
    "Load failed. Reloading " ++ u ++ "\n" ≠ "Watchdog timeout\n" := by
  intro h
  have h2 := congrArg String.data h
  simp at h2

theorem tls_line_ne (u : String) :
    "TLS certificate error for " ++ u ++ "\n" ≠ "Watchdog timeout\n" := by
  intro h
  have h2 := congrArg String.data h
  simp at h2

/-! ## The callbacks one by one -/

theorem startNewSession_reset (uri : String) (reset : Nat) (g : Globals) (h : reset ≠ 0) :
    (startNewSession uri reset g).g = { g with watchdogRunning := 0 } ∧
    sessionStarts (startNewSession uri reset g).calls = [Effect.data_manager_clear uri] ∧
    clearsOf (startNewSession uri reset g).calls = [uri] ∧
    timersOf (startNewSession uri reset g).calls = [] ∧
    fires (startNewSession uri reset g).calls = 0 := by
  unfold startNewSession
  by_cases hd : g.debug = 0 <;>
    simp [h, hd, sessionStarts, Effect.isSessionStart, clearsOf, timersOf, fires, watchdogLine]

theorem startNewSession_plain (uri : String) (g : Globals) :
    (startNewSession uri 0 g).g = g ∧
    (startNewSession uri 0 g).calls = [Effect.load_uri uri] := by
  simp [startNewSession]

theorem clearCompleted_spec (u : String) (g : Globals) :
    (websiteDataManagerClearCompleted u g).g = { g with watchdogRunning := 1 } ∧
    sessionStarts (websiteDataManagerClearCompleted u g).calls = [Effect.load_uri u] ∧
    clearsOf (websiteDataManagerClearCompleted u g).calls = [] ∧
    timersOf (websiteDataManagerClearCompleted u g).calls = [] ∧
    fires (websiteDataManagerClearCompleted u g).calls = 0 := by
  unfold websiteDataManagerClearCompleted
  by_cases hd : g.debug = 0 <;>
    simp [hd, sessionStarts, Effect.isSessionStart, clearsOf, timersOf, fires, watchdogLine]

/-! ## Lists of calls -/

theorem clearsOf_append (xs ys : List Effect) :
    clearsOf (xs ++ ys) = clearsOf xs ++ clearsOf ys := by
  induction xs with
  | nil => rfl
  | cons x xs ih => cases x <;> simp [clearsOf, ih]

theorem timersOf_append (xs ys : List Effect) :
    timersOf (xs ++ ys) = timersOf xs ++ timersOf ys := by
  induction xs with
  | nil => rfl
  | cons x xs ih => cases x <;> simp [timersOf, ih]

theorem fires_append (xs ys : List Effect) : fires (xs ++ ys) = fires xs + fires ys := by
  simp [fires]

theorem sessionStarts_append (xs ys : List Effect) :
    sessionStarts (xs ++ ys) = sessionStarts xs ++ sessionStarts ys := by
  simp [sessionStarts]

/-! ## The periodic check -/

theorem periodic_check_eq (active : Bool) (title : String) (g : Globals) :
    periodic_check active title g =
      { g := (watchdog_block g).g,
        calls := (watchdog_block g).calls ++ tick_rest active title (watchdog_block g).g,
        val := true } := by
  simp [periodic_check, watchdog_block, tick_rest, List.append_assoc]

theorem tick_rest_spec (active : Bool) (title : String) (g : Globals) :
    sessionStarts (tick_rest active title g) = [] ∧
    clearsOf (tick_rest active title g) = [] ∧
    timersOf (tick_rest active title g) = [] ∧
    fires (tick_rest active title g) = 0 := by
  unfold tick_rest
  by_cases h1 : g.hideMouse = 0 <;> by_cases h2 : g.kiosk = 0 <;>
    by_cases h3 : g.debug = 0 <;> cases active <;>
    simp [h1, h2, h3, sessionStarts, Effect.isSessionStart, clearsOf, timersOf, fires,
      watchdogLine]

theorem watchdog_block_idle (g : Globals)
    (h : g.watchdogTimeout = 0 ∨ g.watchdogRunning = 0) :
    (watchdog_block g).g = g ∧ (watchdog_block g).calls = [] := by
  unfold watchdog_block
  rcases h with h | h <;> simp [h]

theorem watchdog_block_count (g : Globals) (h1 : g.watchdogTimeout ≠ 0)
    (h2 : g.watchdogRunning ≠ 0) (h3 : g.watchdogValue < usub g.watchdogTimeout 1) :
    (watchdog_block g).g = { g with watchdogValue := g.watchdogValue + 1 } ∧
    (watchdog_block g).calls = [] := by
  unfold watchdog_block
  have h4 : ¬ (g.watchdogValue ≥ usub g.watchdogTimeout 1) := by omega
  simp [h1, h2, h4, uinc_of_lt_usub h3]

theorem watchdog_block_expire (g : Globals) (h1 : g.watchdogTimeout ≠ 0)
    (h2 : g.watchdogRunning ≠ 0) (h3 : usub g.watchdogTimeout 1 ≤ g.watchdogValue) :
    (watchdog_block g).g =
      { (startNewSession g.baseUri g.watchdogReset g).g with watchdogValue := 0 } ∧
    (watchdog_block g).calls =
      watchdogLine :: (startNewSession g.baseUri g.watchdogReset g).calls := by
  unfold watchdog_block
  simp [h1, h2, h3, watchdogLine]

/-! ## One dispatch -/

theorem step_tick (s : Sys) (active : Bool) (title : String) :
    step s (Event.tick active title) = some (s.after (periodic_check active title s.g)) := rfl

theorem after_tick (s : Sys) (active : Bool) (title : String) :
    (s.after (periodic_check active title s.g)).g = (watchdog_block s.g).g ∧
    (s.after (periodic_check active title s.g)).clears =
      s.clears ++ clearsOf (watchdog_block s.g).calls ∧
    fires (s.after (periodic_check active title s.g)).trace =
      fires s.trace + fires (watchdog_block s.g).calls := by
  have h := tick_rest_spec active title (watchdog_block s.g).g
  simp [Sys.after, periodic_check_eq, clearsOf_append, fires_append, h.2.1, h.2.2.2]

theorem step_resource_load (s s1 : Sys) (u : String)
    (h : step s (Event.resource_load u) = some s1) :
    s1.g = { s.g with watchdogValue := 0 } ∧ s1.clears = s.clears ∧ s1.timers = s.timers ∧
    fires s1.trace = fires s.trace ∧ sessionStarts s1.trace = sessionStarts s.trace := by
  simp only [step, Option.some.injEq] at h
  subst h
  by_cases hd : s.g.debug = 0 <;>
    simp [Sys.after, on_resource_load, hd, clearsOf, timersOf, fires, sessionStarts,
      Effect.isSessionStart, watchdogLine]

theorem step_clear_completed (s s1 : Sys) (i : Nat)
    (h : step s (Event.clear_completed i) = some s1) :
    ∃ u, s.clears[i]? = some u ∧ s1.g = { s.g with watchdogRunning := 1 } ∧
      s1.clears = s.clears.eraseIdx i ∧ fires s1.trace = fires s.trace ∧
      sessionStarts s1.trace = sessionStarts s.trace ++ [Effect.load_uri u] := by
  simp only [step] at h
  cases hu : s.clears[i]? with
  | none => simp [hu] at h
  | some u =>
    simp only [hu, Option.some.injEq] at h
    subst h
    have hc := clearCompleted_spec u s.g
    refine ⟨u, rfl, ?_⟩
    simp [Sys.after, hc.1, hc.2.1, hc.2.2.1, hc.2.2.2.2, fires_append, sessionStarts_append]

theorem step_passive (s s1 : Sys) (e : Event) (hp : e.isPassive = true)
    (h : step s e = some s1) :
    s1.g = s.g ∧ s1.clears = s.clears ∧ fires s1.trace = fires s.trace := by
  cases e with
  | tick a t => simp [Event.isPassive] at hp
  | resource_load u => simp [Event.isPassive] at hp
  | clear_completed i => simp [Event.isPassive] at hp
  | load_failed u r =>
    simp only [step, Option.some.injEq] at h
    subst h
    have hne := load_failed_line_ne u
    simp [Sys.after, on_load_failed, clearsOf, fires, List.count_cons, watchdogLine, hne]
  | reload_timer i =>
    simp only [step] at h
    cases hu : s.timers[i]? with
    | none => simp [hu] at h
    | some u =>
      simp only [hu, Option.some.injEq] at h
      subst h
      simp [Sys.after, reload_timer, clearsOf, fires, watchdogLine]
  | permission_request =>
    simp only [step, Option.some.injEq] at h
    subst h
    by_cases h1 : s.g.kiosk = 0 <;> by_cases h2 : s.g.acceptAll = 0 <;>
      simp [Sys.after, on_permission_request, h1, h2, clearsOf, fires, watchdogLine]
  | window_changed =>
    simp only [step, Option.some.injEq] at h
    subst h
    by_cases h1 : s.g.kiosk = 0 <;> by_cases h2 : s.g.hideMouse = 0 <;>
      simp [Sys.after, on_window_changed, h1, h2, clearsOf, fires, watchdogLine]
  | load_failed_tls u =>
    simp only [step, Option.some.injEq] at h
    subst h
    have hne := tls_line_ne u
    simp [Sys.after, on_load_failed_tls, clearsOf, fires, List.count_cons, watchdogLine, hne]
  | context_menu =>
    simp only [step, Option.some.injEq] at h
    subst h
    by_cases h1 : s.g.kiosk = 0 <;> simp [Sys.after, on_context_menu, h1, clearsOf, fires]
  | print_signal =>
    simp only [step, Option.some.injEq] at h
    subst h
    by_cases h1 : s.g.kiosk = 0 <;> simp [Sys.after, on_print, h1, clearsOf, fires]
  | script_dialog m =>
    simp only [step, Option.some.injEq] at h
    subst h
    by_cases h1 : s.g.kiosk = 0 <;> by_cases h2 : s.g.debug = 0 <;>
      simp [Sys.after, on_dialog, h1, h2, clearsOf, fires, watchdogLine]
  | show_notification t b =>
    simp only [step, Option.some.injEq] at h
    subst h
    by_cases h1 : s.g.kiosk = 0 <;> by_cases h2 : s.g.debug = 0 <;>
      simp [Sys.after, on_notification, h1, h2, clearsOf, fires, watchdogLine]
  | load_changed f =>
    simp only [step, Option.some.injEq] at h
    subst h
    by_cases h2 : s.g.debug = 0 <;> cases f <;>
      simp [Sys.after, on_load_changed, h2, clearsOf, fires, watchdogLine]

/-! ## Start-up -/

theorem main_switch_keeps (r : GetoptResult) (g g1 : Globals)
    (h : main_switch r g = .ok g1)
    (hg : g.watchdogValue = 0 ∧ g.watchdogRunning = 1 ∧ g.watchdogTimeout < UINT_MOD) :
    g1.watchdogValue = 0 ∧ g1.watchdogRunning = 1 ∧ g1.watchdogTimeout < UINT_MOD := by
  unfold main_switch at h
  have ht := toUInt_lt (atoi r.optarg)
  by_cases h0 : r.c = Char.ofNat 0
  · rw [if_pos h0] at h; injection h with h; subst h; exact hg
  rw [if_neg h0] at h
  by_cases hc : r.c = 'b'
  · rw [if_pos hc] at h; injection h with h; subst h; exact ⟨hg.1, hg.2.1, hg.2.2⟩
  rw [if_neg hc] at h; clear hc
  by_cases hc : r.c = 'r'
  · rw [if_pos hc] at h; injection h with h; subst h; exact ⟨hg.1, hg.2.1, hg.2.2⟩
  rw [if_neg hc] at h; clear hc
  by_cases hc : r.c = 'e'
  · rw [if_pos hc] at h; injection h with h; subst h; exact ⟨hg.1, hg.2.1, hg.2.2⟩
  rw [if_neg hc] at h; clear hc
  by_cases hc : r.c = 'c'
  · rw [if_pos hc] at h; injection h with h; subst h; exact ⟨hg.1, hg.2.1, hg.2.2⟩
  rw [if_neg hc] at h; clear hc
  by_cases hc : r.c = 'a'
  · rw [if_pos hc] at h; injection h with h; subst h; exact ⟨hg.1, hg.2.1, hg.2.2⟩
  rw [if_neg hc] at h; clear hc
  by_cases hc : r.c = 'k'
  · rw [if_pos hc] at h; injection h with h; subst h; exact ⟨hg.1, hg.2.1, hg.2.2⟩
  rw [if_neg hc] at h; clear hc
  by_cases hc : r.c = 'm'
  · rw [if_pos hc] at h; injection h with h; subst h; exact ⟨hg.1, hg.2.1, hg.2.2⟩
  rw [if_neg hc] at h; clear hc
  by_cases hc : r.c = 'd'
  · rw [if_pos hc] at h; injection h with h; subst h; exact ⟨hg.1, hg.2.1, hg.2.2⟩
  rw [if_neg hc] at h; clear hc
  by_cases hc : r.c = 'u'
  · rw [if_pos hc] at h; injection h with h; subst h; exact ⟨hg.1, hg.2.1, hg.2.2⟩
  rw [if_neg hc] at h; clear hc
  by_cases hc : r.c = 'w'
  · rw [if_pos hc] at h; injection h with h; subst h; exact ⟨hg.1, hg.2.1, ht⟩
  rw [if_neg hc] at h; clear hc
  by_cases hc : r.c = 'i'
  · rw [if_pos hc] at h; injection h with h; subst h; exact ⟨hg.1, hg.2.1, hg.2.2⟩
  rw [if_neg hc] at h; clear hc
  by_cases hc : r.c = 'h' ∨ r.c = '?'
  · rw [if_pos hc] at h; injection h
  · rw [if_neg hc] at h; injection h

theorem main_options_keeps (rs : List GetoptResult) (g g1 : Globals)
    (h : main_options rs g = .ok g1)
    (hg : g.watchdogValue = 0 ∧ g.watchdogRunning = 1 ∧ g.watchdogTimeout < UINT_MOD) :
    g1.watchdogValue = 0 ∧ g1.watchdogRunning = 1 ∧ g1.watchdogTimeout < UINT_MOD := by
  induction rs generalizing g with
  | nil =>
    simp only [main_options, Except.ok.injEq] at h
    subst h
    exact hg
  | cons r rs ih =>
    simp only [main_options] at h
    cases hs : main_switch r g with
    | error t => simp [hs] at h
    | ok g2 =>
      simp only [hs] at h
      exact ih g2 h (main_switch_keeps r g g2 hs hg)

theorem main_spec (results : List GetoptResult) (s0 : Sys) (h : main results = .ok s0) :
    s0.g.watchdogValue = 0 ∧ s0.g.watchdogRunning = 1 ∧ s0.g.watchdogTimeout < UINT_MOD ∧
    s0.g.watchdogTimeout ≠ 1 ∧ s0.g.cursor = Cursor.blank ∧ s0.clears = [] ∧
    s0.timers = [] ∧ s0.trace = [Effect.load_uri s0.g.baseUri] := by
  unfold main at h
  cases ho : main_options results initialGlobals with
  | error t => simp [ho] at h
  | ok g =>
    have hk := main_options_keeps results initialGlobals g ho
      (by simp [initialGlobals, UINT_MOD])
    simp only [ho] at h
    split_ifs at h with h1 h2 h3
    · injection h with h
      subst h
      simp [Sys.after, startNewSession, clearsOf, timersOf, hk.1, hk.2.1, UINT_MOD]
    · injection h with h
      subst h
      simp [Sys.after, startNewSession, clearsOf, timersOf, hk.1, hk.2.1, hk.2.2, h1]

theorem main_sound (results : List GetoptResult) (s0 : Sys) (h : main results = .ok s0) :
    Sound s0 := by
  have hm := main_spec results s0 h
  refine ⟨?_, ?_, hm.2.2.1, ?_, hm.2.2.2.2.1⟩
  · simp [hm.2.1, hm.2.2.2.2.2.1]
  · simp [hm.2.2.2.2.2.1]
  · simp [hm.1]

/-! ## What every dispatch preserves -/

theorem watchdog_block_cases (g : Globals) :
    ((g.watchdogTimeout = 0 ∨ g.watchdogRunning = 0) ∧
      (watchdog_block g).g = g ∧ (watchdog_block g).calls = []) ∨
    (g.watchdogTimeout ≠ 0 ∧ g.watchdogRunning ≠ 0 ∧
      g.watchdogValue < usub g.watchdogTimeout 1 ∧
      (watchdog_block g).g = { g with watchdogValue := g.watchdogValue + 1 } ∧
      (watchdog_block g).calls = []) ∨
    (g.watchdogTimeout ≠ 0 ∧ g.watchdogRunning ≠ 0 ∧
      usub g.watchdogTimeout 1 ≤ g.watchdogValue ∧
      (watchdog_block g).g =
        { (startNewSession g.baseUri g.watchdogReset g).g with watchdogValue := 0 } ∧
      (watchdog_block g).calls =
        watchdogLine :: (startNewSession g.baseUri g.watchdogReset g).calls) := by
  by_cases h1 : g.watchdogTimeout = 0
  · exact Or.inl ⟨Or.inl h1, watchdog_block_idle g (Or.inl h1)⟩
  by_cases h2 : g.watchdogRunning = 0
  · exact Or.inl ⟨Or.inr h2, watchdog_block_idle g (Or.inr h2)⟩
  by_cases h3 : g.watchdogValue < usub g.watchdogTimeout 1
  · exact Or.inr (Or.inl ⟨h1, h2, h3, watchdog_block_count g h1 h2 h3⟩)
  · have h4 : usub g.watchdogTimeout 1 ≤ g.watchdogValue := by omega
    exact Or.inr (Or.inr ⟨h1, h2, h4, watchdog_block_expire g h1 h2 h4⟩)

theorem startNewSession_config (uri : String) (reset : Nat) (g : Globals) :
    (startNewSession uri reset g).g.config = g.config ∧
    (startNewSession uri reset g).g.watchdogValue = g.watchdogValue := by
  unfold startNewSession
  by_cases h : reset = 0 <;> simp [h, Globals.config]

theorem watchdog_block_config (g : Globals) : (watchdog_block g).g.config = g.config := by
  rcases watchdog_block_cases g with ⟨_, h, _⟩ | ⟨_, _, _, h, _⟩ | ⟨_, _, _, h, _⟩
  · rw [h]
  · rw [h]; simp [Globals.config]
  · rw [h]
    have hc := (startNewSession_config g.baseUri g.watchdogReset g).1
    simp only [Globals.config] at hc ⊢
    exact hc

theorem step_config (s s1 : Sys) (e : Event) (h : step s e = some s1) :
    s1.g.config = s.g.config := by
  by_cases hp : e.isPassive = true
  · rw [(step_passive s s1 e hp h).1]
  · cases e with
    | tick a t =>
      rw [step_tick] at h
      injection h with h
      subst h
      rw [(after_tick s a t).1, watchdog_block_config]
    | resource_load u =>
      rw [(step_resource_load s s1 u h).1]
      simp [Globals.config]
    | clear_completed i =>
      obtain ⟨u, _, hg, _⟩ := step_clear_completed s s1 i h
      rw [hg]
      simp [Globals.config]
    | _ => simp [Event.isPassive] at hp

theorem config_fields (g g1 : Globals) (h : g1.config = g.config) :
    g1.cursor = g.cursor ∧ g1.kiosk = g.kiosk ∧ g1.ignoreCertificate = g.ignoreCertificate ∧
    g1.acceptAll = g.acceptAll ∧ g1.hideMouse = g.hideMouse ∧
    g1.watchdogTimeout = g.watchdogTimeout ∧ g1.watchdogReset = g.watchdogReset ∧
    g1.reduceCache = g.reduceCache ∧ g1.debug = g.debug ∧
    g1.ephemeralMode = g.ephemeralMode ∧ g1.baseUri = g.baseUri ∧ g1.baseDir = g.baseDir := by
  simp only [Globals.config] at h
  injection h with a1 a2 a3 a4 a5 a6 a7 a8 a9 a10 a11 a12 a13 a14
  exact ⟨a1, a2, a3, a4, a5, a6, a8, a9, a10, a11, a13, a14⟩

theorem run_config (evs : List Event) (s s1 : Sys) (h : run s evs = some s1) :
    s1.g.config = s.g.config := by
  induction evs generalizing s with
  | nil =>
    simp only [run, Option.some.injEq] at h
    rw [h]
  | cons e es ih =>
    simp only [run] at h
    cases hs : step s e with
    | none => simp [hs] at h
    | some s2 =>
      simp only [hs] at h
      rw [ih s2 h, step_config s s2 e hs]

theorem eraseIdx_of_short (l : List String) (i : Nat) (u : String)
    (hl : l.length ≤ 1) (hi : l[i]? = some u) : l = [u] ∧ l.eraseIdx i = [] := by
  match l, i with
  | [], _ => simp at hi
  | [x], 0 =>
    simp at hi
    simp [hi]
  | [x], i + 1 => simp at hi
  | _ :: _ :: _, _ => simp at hl

theorem tick_sound (s : Sys) (active : Bool) (title : String) (hs : Sound s) :
    Sound (s.after (periodic_check active title s.g)) := by
  obtain ⟨hg, hc, _⟩ := after_tick s active title
  have hT := hs.timeout_lt
  rcases watchdog_block_cases s.g with ⟨_, h, hcalls⟩ | ⟨h1, _, h3, h, hcalls⟩ |
      ⟨h1, h2, _, h, hcalls⟩
  · rw [h] at hg
    rw [hcalls] at hc
    simp only [clearsOf, List.append_nil] at hc
    exact ⟨by rw [hg, hc]; exact hs.suspended_iff, by rw [hc]; exact hs.one_clear,
      by rw [hg]; exact hT, by rw [hg]; exact hs.value_le, by rw [hg]; exact hs.cursor_blank⟩
  · rw [h] at hg
    rw [hcalls] at hc
    simp only [clearsOf, List.append_nil] at hc
    have hu := usub_one (Nat.one_le_iff_ne_zero.mpr h1) hT
    refine ⟨?_, by rw [hc]; exact hs.one_clear, by rw [hg]; exact hT, ?_,
      by rw [hg]; exact hs.cursor_blank⟩
    · rw [hg, hc]; exact hs.suspended_iff
    · rw [hg]
      show s.g.watchdogValue + 1 ≤ s.g.watchdogTimeout - 1
      omega
  · rw [h] at hg
    rw [hcalls] at hc
    have hempty : s.clears = [] := by
      by_contra hne
      exact h2 (hs.suspended_iff.mpr hne)
    by_cases hr : s.g.watchdogReset = 0
    · have hp := startNewSession_plain s.g.baseUri s.g
      rw [hr, hp.1] at hg
      rw [hr, hp.2] at hc
      simp only [clearsOf, watchdogLine, List.append_nil] at hc
      refine ⟨?_, by rw [hc]; exact hs.one_clear, by rw [hg]; exact hT, ?_,
        by rw [hg]; exact hs.cursor_blank⟩
      · rw [hg, hc]; exact hs.suspended_iff
      · rw [hg]; exact Nat.zero_le _
    · have hp := startNewSession_reset s.g.baseUri s.g.watchdogReset s.g hr
      rw [hp.1] at hg
      have hc2 : (s.after (periodic_check active title s.g)).clears = [s.g.baseUri] := by
        rw [hc, hempty]
        simp [clearsOf, watchdogLine, hp.2.2.1]
      refine ⟨?_, by rw [hc2]; simp, by rw [hg]; exact hT, ?_,
        by rw [hg]; exact hs.cursor_blank⟩
      · rw [hg, hc2]; simp
      · rw [hg]; exact Nat.zero_le _

theorem step_sound (s s1 : Sys) (e : Event) (hs : Sound s) (h : step s e = some s1) :
    Sound s1 := by
  by_cases hp : e.isPassive = true
  · obtain ⟨hg, hc, _⟩ := step_passive s s1 e hp h
    exact ⟨by rw [hg, hc]; exact hs.suspended_iff, by rw [hc]; exact hs.one_clear,
      by rw [hg]; exact hs.timeout_lt, by rw [hg]; exact hs.value_le,
      by rw [hg]; exact hs.cursor_blank⟩
  · cases e with
    | tick a t =>
      rw [step_tick] at h
      injection h with h
      subst h
      exact tick_sound s a t hs
    | resource_load u =>
      obtain ⟨hg, hc, _⟩ := step_resource_load s s1 u h
      exact ⟨by rw [hg, hc]; exact hs.suspended_iff, by rw [hc]; exact hs.one_clear,
        by rw [hg]; exact hs.timeout_lt, by rw [hg]; exact Nat.zero_le _,
        by rw [hg]; exact hs.cursor_blank⟩
    | clear_completed i =>
      obtain ⟨u, hu, hg, hc, _⟩ := step_clear_completed s s1 i h
      have he := (eraseIdx_of_short s.clears i u hs.one_clear hu).2
      rw [he] at hc
      exact ⟨by rw [hg, hc]; simp, by rw [hc]; simp, by rw [hg]; exact hs.timeout_lt,
        by rw [hg]; exact hs.value_le, by rw [hg]; exact hs.cursor_blank⟩
    | _ => simp [Event.isPassive] at hp

theorem run_sound (evs : List Event) (s s1 : Sys) (hs : Sound s) (h : run s evs = some s1) :
    Sound s1 := by
  induction evs generalizing s with
  | nil =>
    simp only [run, Option.some.injEq] at h
    rw [← h]
    exact hs
  | cons e es ih =>
    simp only [run] at h
    cases hst : step s e with
    | none => simp [hst] at h
    | some s2 =>
      simp only [hst] at h
      exact ih s2 (step_sound s s2 e hs hst) h

theorem tick_summary (active : Bool) (title : String) (g : Globals) :
    (periodic_check active title g).g = (watchdog_block g).g ∧
    fires (periodic_check active title g).calls = fires (watchdog_block g).calls ∧
    sessionStarts (periodic_check active title g).calls =
      sessionStarts (watchdog_block g).calls := by
  have h := tick_rest_spec active title (watchdog_block g).g
  simp [periodic_check_eq, fires_append, sessionStarts_append, h.1, h.2.2.2]

theorem run_ticks_suspended (evs : List Event) (s : Sys)
    (hev : ∀ e ∈ evs, ∃ a t, e = Event.tick a t) (hs : s.g.watchdogRunning = 0) :
    ∃ s1, run s evs = some s1 ∧ s1.g = s.g ∧ s1.clears = s.clears ∧
      fires s1.trace = fires s.trace ∧ sessionStarts s1.trace = sessionStarts s.trace := by
  induction evs generalizing s with
  | nil => exact ⟨s, rfl, rfl, rfl, rfl, rfl⟩
  | cons e es ih =>
    obtain ⟨a, t, rfl⟩ := hev _ (List.mem_cons_self _ _)
    have hidle := watchdog_block_idle s.g (Or.inr hs)
    have ht := tick_summary a t s.g
    have h1 : (s.after (periodic_check a t s.g)).g = s.g := by
      simp only [Sys.after]; rw [ht.1, hidle.1]
    have h2 : (s.after (periodic_check a t s.g)).clears = s.clears := by
      rw [(after_tick s a t).2.1, hidle.2]; simp [clearsOf]
    have h3 : fires (s.after (periodic_check a t s.g)).trace = fires s.trace := by
      rw [(after_tick s a t).2.2, hidle.2]; simp [fires]
    have h4 : sessionStarts (s.after (periodic_check a t s.g)).trace =
        sessionStarts s.trace := by
      simp only [Sys.after, sessionStarts_append]
      rw [ht.2.2, hidle.2]; simp [sessionStarts]
    obtain ⟨s1, hr, hg, hc, hf, hss⟩ :=
      ih (s.after (periodic_check a t s.g))
        (fun e he => hev e (List.mem_cons_of_mem _ he)) (by rw [h1]; exact hs)
    refine ⟨s1, ?_, by rw [hg, h1], by rw [hc, h2], by rw [hf, h3], by rw [hss, h4]⟩
    simp only [run, step_tick]
    exact hr

theorem startNewSession_summary (uri : String) (reset : Nat) (g : Globals) :
    sessionStarts (startNewSession uri reset g).calls = [sessionStartCall uri reset] ∧
    fires (startNewSession uri reset g).calls = 0 := by
  by_cases hr : reset = 0
  · subst hr
    simp [startNewSession, sessionStarts, Effect.isSessionStart, sessionStartCall, fires,
      watchdogLine]
  · have h := startNewSession_reset uri reset g hr
    simp [h.2.1, h.2.2.2.2, sessionStartCall, hr]

theorem triggers_fires (calls : List Effect) (uri : String) (reset : Nat) (g : Globals)
    (h : Triggers calls uri reset g) : fires calls = 1 := by
  obtain ⟨rest, hc, _, hf⟩ := h
  have h0 := (startNewSession_summary uri reset g).2
  rw [hc]
  have : watchdogLine :: ((startNewSession uri reset g).calls ++ rest) =
      [watchdogLine] ++ ((startNewSession uri reset g).calls ++ rest) := rfl
  rw [this, fires_append, fires_append, h0, hf]
  simp [fires]

theorem tick_expire (active : Bool) (title : String) (g : Globals)
    (h1 : g.watchdogTimeout ≠ 0) (h2 : g.watchdogRunning ≠ 0)
    (h3 : usub g.watchdogTimeout 1 ≤ g.watchdogValue) :
    Triggers (periodic_check active title g).calls g.baseUri g.watchdogReset g ∧
    fires (periodic_check active title g).calls = 1 ∧
    sessionStarts (periodic_check active title g).calls =
      [sessionStartCall g.baseUri g.watchdogReset] ∧
    (periodic_check active title g).g.watchdogValue = 0 := by
  have he := watchdog_block_expire g h1 h2 h3
  have hr := tick_rest_spec active title (watchdog_block g).g
  have ht : Triggers (periodic_check active title g).calls g.baseUri g.watchdogReset g := by
    refine ⟨tick_rest active title (watchdog_block g).g, ?_, hr.1, hr.2.2.2⟩
    rw [periodic_check_eq, he.2]
    rfl
  have hs := tick_summary active title g
  refine ⟨ht, triggers_fires _ _ _ _ ht, ?_, ?_⟩
  · rw [hs.2.2, he.2]
    have h0 := (startNewSession_summary g.baseUri g.watchdogReset g).1
    have : watchdogLine :: (startNewSession g.baseUri g.watchdogReset g).calls =
        [watchdogLine] ++ (startNewSession g.baseUri g.watchdogReset g).calls := rfl
    rw [this, sessionStarts_append, h0]
    simp [sessionStarts, watchdogLine, Effect.isSessionStart]
  · rw [hs.1, he.1]

theorem tick_count (active : Bool) (title : String) (g : Globals)
    (h1 : g.watchdogTimeout ≠ 0) (h2 : g.watchdogRunning ≠ 0)
    (h3 : g.watchdogValue < usub g.watchdogTimeout 1) :
    fires (periodic_check active title g).calls = 0 ∧
    sessionStarts (periodic_check active title g).calls = [] ∧
    (periodic_check active title g).g = { g with watchdogValue := g.watchdogValue + 1 } := by
  have he := watchdog_block_count g h1 h2 h3
  have hs := tick_summary active title g
  rw [hs.1, hs.2.1, hs.2.2, he.1, he.2]
  simp [fires, sessionStarts]

theorem run_counts (evs : List Event) (s s1 : Sys)
    (hno : ∀ e ∈ evs, e.isResourceLoad = false) (hrun : run s evs = some s1)
    (hrunning : s.g.watchdogRunning ≠ 0) (hlt : s.g.watchdogTimeout < UINT_MOD)
    (hk : s.g.watchdogValue + ticks evs < s.g.watchdogTimeout) :
    s1.g.watchdogValue = s.g.watchdogValue + ticks evs ∧ s1.g.watchdogRunning ≠ 0 ∧
    fires s1.trace = fires s.trace := by
  induction evs generalizing s with
  | nil =>
    simp only [run, Option.some.injEq] at hrun
    subst hrun
    exact ⟨rfl, hrunning, rfl⟩
  | cons e es ih =>
    simp only [run] at hrun
    cases hst : step s e with
    | none => simp [hst] at hrun
    | some s2 =>
      simp only [hst] at hrun
      have hno2 : ∀ e ∈ es, e.isResourceLoad = false :=
        fun e he => hno e (List.mem_cons_of_mem _ he)
      by_cases hp : e.isPassive = true
      · obtain ⟨hg, _, hf⟩ := step_passive s s2 e hp hst
        have htk : ticks (e :: es) = ticks es := by
          cases e <;> first | rfl | simp [Event.isPassive] at hp
        rw [htk] at hk ⊢
        have := ih s2 hno2 hrun (by rw [hg]; exact hrunning) (by rw [hg]; exact hlt)
          (by rw [hg]; exact hk)
        rw [hg, hf] at this
        exact this
      · cases e with
        | tick a t =>
          rw [step_tick] at hst
          injection hst with hst
          subst hst
          have htk : ticks (Event.tick a t :: es) = ticks es + 1 := rfl
          rw [htk] at hk ⊢
          have h1 : s.g.watchdogTimeout ≠ 0 := by omega
          have hu := usub_one (Nat.one_le_iff_ne_zero.mpr h1) hlt
          have hc := watchdog_block_count s.g h1 hrunning (by rw [hu]; omega)
          obtain ⟨hg, _, hf⟩ := after_tick s a t
          rw [hc.1] at hg
          rw [hc.2] at hf
          have := ih _ hno2 hrun (by rw [hg]; exact hrunning) (by rw [hg]; exact hlt)
            (by rw [hg]; show s.g.watchdogValue + 1 + ticks es < s.g.watchdogTimeout; omega)
          rw [hg, hf] at this
          refine ⟨?_, this.2.1, ?_⟩
          · rw [this.1]; show s.g.watchdogValue + 1 + ticks es = _; omega
          · rw [this.2.2]; simp [fires]
        | resource_load u =>
          have := hno _ (List.mem_cons_self _ _)
          simp [Event.isResourceLoad] at this
        | clear_completed i =>
          obtain ⟨u, _, hg, _, hf, _⟩ := step_clear_completed s s2 i hst
          have htk : ticks (Event.clear_completed i :: es) = ticks es := rfl
          rw [htk] at hk ⊢
          have := ih s2 hno2 hrun (by rw [hg]; simp) (by rw [hg]; exact hlt)
            (by rw [hg]; exact hk)
          rw [hf] at this
          rw [hg] at this
          exact ⟨this.1, this.2.1, this.2.2⟩
        | _ => simp [Event.isPassive] at hp

theorem run_append (xs ys : List Event) (s : Sys) :
    run s (xs ++ ys) = (run s xs).bind (fun s1 => run s1 ys) := by
  induction xs generalizing s with
  | nil => rfl
  | cons x xs ih =>
    simp only [List.cons_append, run]
    cases step s x with
    | none => rfl
    | some s1 => exact ih s1

theorem run_ticks_counts (envs : List (Bool × String)) (s : Sys)
    (hrunning : s.g.watchdogRunning ≠ 0) (hlt : s.g.watchdogTimeout < UINT_MOD)
    (hk : s.g.watchdogValue + envs.length < s.g.watchdogTimeout) :
    ∃ s1, run s (envs.map tickOf) = some s1 ∧
      s1.g = { s.g with watchdogValue := s.g.watchdogValue + envs.length } ∧
      s1.clears = s.clears ∧ fires s1.trace = fires s.trace ∧
      sessionStarts s1.trace = sessionStarts s.trace := by
  induction envs generalizing s with
  | nil => exact ⟨s, rfl, rfl, rfl, rfl, rfl⟩
  | cons env envs ih =>
    simp only [List.length_cons] at hk
    have h1 : s.g.watchdogTimeout ≠ 0 := by omega
    have hu := usub_one (Nat.one_le_iff_ne_zero.mpr h1) hlt
    have hc := tick_count env.1 env.2 s.g h1 hrunning (by rw [hu]; omega)
    have hb := watchdog_block_count s.g h1 hrunning (by rw [hu]; omega)
    obtain ⟨_, hac, haf⟩ := after_tick s env.1 env.2
    have hg : (s.after (periodic_check env.1 env.2 s.g)).g =
        { s.g with watchdogValue := s.g.watchdogValue + 1 } := hc.2.2
    obtain ⟨s1, hr, hg1, hc1, hf1, hs1⟩ := ih (s.after (periodic_check env.1 env.2 s.g))
      (by rw [hg]; exact hrunning) (by rw [hg]; exact hlt)
      (by rw [hg]; show s.g.watchdogValue + 1 + envs.length < s.g.watchdogTimeout; omega)
    refine ⟨s1, ?_, ?_, ?_, ?_, ?_⟩
    · simp only [List.map_cons, run, tickOf, step_tick]
      exact hr
    · rw [hg1, hg]
      simp only [List.length_cons]
      have : s.g.watchdogValue + 1 + envs.length = s.g.watchdogValue + (envs.length + 1) := by
        omega
      simp [this]
    · rw [hc1, hac, hb.2]; simp [clearsOf]
    · rw [hf1, haf, hb.2]; simp [fires]
    · rw [hs1]
      simp only [Sys.after, sessionStarts_append]
      rw [hc.2.1]; simp

theorem watchdog_block_cursorCalls (g : Globals) :
    cursorCalls (watchdog_block g).calls = [] := by
  rcases watchdog_block_cases g with ⟨_, _, hc⟩ | ⟨_, _, _, _, hc⟩ | ⟨_, _, _, _, hc⟩
  · rw [hc]; rfl
  · rw [hc]; rfl
  · rw [hc]
    unfold startNewSession
    by_cases hr : g.watchdogReset = 0 <;> by_cases hd : g.debug = 0 <;>
      simp [hr, hd, cursorCalls, watchdogLine, Effect.isSetCursor]

theorem tick_rest_cursorCalls (active : Bool) (title : String) (g : Globals) :
    cursorCalls (tick_rest active title g) =
      if g.hideMouse ≠ 0 then [Effect.set_cursor Surface.webView g.cursor] else [] := by
  unfold tick_rest
  by_cases h1 : g.hideMouse = 0 <;> by_cases h2 : g.kiosk = 0 <;>
    by_cases h3 : g.debug = 0 <;> cases active <;>
    simp [h1, h2, h3, cursorCalls, Effect.isSetCursor]

theorem window_changed_cursorCalls (g : Globals) :
    cursorCalls (on_window_changed g).calls =
      if g.hideMouse ≠ 0 then [Effect.set_cursor Surface.mainWindow g.cursor] else [] := by
  unfold on_window_changed
  by_cases h1 : g.hideMouse = 0 <;> by_cases h2 : g.kiosk = 0 <;>
    simp [h1, h2, cursorCalls, Effect.isSetCursor]

/-! ## The claims -/

/-- C5: while the watchdog is suspended (`watchdogRunning = 0`), whatever the timeout
and the counter, a periodic tick leaves every global unchanged, in particular the
counter and the running flag, and starts no load and no clear, and so does any
number of ticks in a row.  A tick changes the counter only when the watchdog is
enabled (`watchdogTimeout != 0`) and running, and a tick that does not expire the
watchdog then adds exactly one. -/
theorem suspended_tick_keeps_counter (g : Globals) (active : Bool) (title : String)
    (s : Sys) (evs : List Event) :
    (g.watchdogRunning = 0 →
      (periodic_check active title g).g = g ∧
      fires (periodic_check active title g).calls = 0 ∧
      sessionStarts (periodic_check active title g).calls = []) ∧
    (s.g.watchdogRunning = 0 → (∀ e ∈ evs, ∃ a t, e = Event.tick a t) →
      ∃ s1, run s evs = some s1 ∧ s1.g = s.g ∧ s1.clears = s.clears ∧
        fires s1.trace = fires s.trace ∧ sessionStarts s1.trace = sessionStarts s.trace) ∧
    ((periodic_check active title g).g.watchdogValue ≠ g.watchdogValue →
      g.watchdogTimeout ≠ 0 ∧ g.watchdogRunning ≠ 0) ∧
    (g.watchdogValue < (periodic_check active title g).g.watchdogValue →
      (periodic_check active title g).g.watchdogValue = g.watchdogValue + 1 ∧
      fires (periodic_check active title g).calls = 0) ∧
    (g.watchdogTimeout ≠ 0 → g.watchdogRunning ≠ 0 →
      fires (periodic_check active title g).calls = 0 →
      (periodic_check active title g).g.watchdogValue = g.watchdogValue + 1 ∧
      (periodic_check active title g).g.watchdogRunning = g.watchdogRunning) := by
  obtain ⟨hg, hf, hss⟩ := tick_summary active title g
  rw [hg, hf, hss]
  refine ⟨?_, fun hs hev => run_ticks_suspended evs s hev hs, ?_, ?_, ?_⟩
  · intro hs
    have hidle := watchdog_block_idle g (Or.inr hs)
    rw [hidle.1, hidle.2]
    simp [fires, sessionStarts]
  · intro hne
    rcases watchdog_block_cases g with ⟨_, h, _⟩ | ⟨h1, h2, _⟩ | ⟨h1, h2, _⟩
    · rw [h] at hne; exact absurd rfl hne
    · exact ⟨h1, h2⟩
    · exact ⟨h1, h2⟩
  · intro hlt
    rcases watchdog_block_cases g with ⟨_, h, _⟩ | ⟨_, _, _, h, hc⟩ | ⟨_, _, _, h, _⟩
    · rw [h] at hlt; exact absurd hlt (Nat.lt_irrefl _)
    · rw [h, hc]; simp [fires]
    · rw [h] at hlt; exact absurd hlt (Nat.not_lt_zero _)
  · intro h1 h2 hz
    rcases watchdog_block_cases g with ⟨h0, _⟩ | ⟨_, _, _, h, _⟩ | ⟨_, _, _, _, hc⟩
    · rcases h0 with h0 | h0
      · exact absurd h0 h1
      · exact absurd h0 h2
    · rw [h]; exact ⟨rfl, rfl⟩
    · rw [hc] at hz
      simp [fires] at hz

/-- Instance of C5: a suspended watchdog with counter 3 and timeout 5 is left at
counter 3 by three ticks in a row. -/
theorem suspended_tick_keeps_counter_witness :
    ∃ s1, run ⟨{ initialGlobals with watchdogTimeout := 5, watchdogValue := 3,
                                     watchdogRunning := 0 }, ["http://127.0.0.1"], [], []⟩
        [Event.tick true "a", Event.tick false "b", Event.tick true "c"] = some s1 ∧
      s1.g.watchdogValue = 3 ∧ s1.g.watchdogRunning = 0 :=
  match (suspended_tick_keeps_counter initialGlobals true ""
      ⟨{ initialGlobals with watchdogTimeout := 5, watchdogValue := 3,
                             watchdogRunning := 0 }, ["http://127.0.0.1"], [], []⟩
      [Event.tick true "a", Event.tick false "b", Event.tick true "c"]).2.1 rfl
      (by intro e he
          simp only [List.mem_cons, List.mem_singleton, List.not_mem_nil, or_false] at he
          rcases he with rfl | rfl | rfl <;> exact ⟨_, _, rfl⟩) with
  | ⟨s1, h1, h2, _⟩ => ⟨s1, h1, by rw [h2], by rw [h2]⟩

/-- C6: in every state, whatever the counter, the running flag and the settings, a
resource-load-start event sets the counter to 0 and changes no other global (the
running flag and the settings stay as they are); it starts no load, no session
clear and no timer, and records no watchdog expiry. -/
theorem on_resource_load_resets_counter_only (resource_uri : String) (s : Sys) :
    (on_resource_load resource_uri s.g).g = { s.g with watchdogValue := 0 } ∧
    (on_resource_load resource_uri s.g).g.watchdogValue = 0 ∧
    (on_resource_load resource_uri s.g).g.watchdogRunning = s.g.watchdogRunning ∧
    (on_resource_load resource_uri s.g).g.config = s.g.config ∧
    sessionStarts (on_resource_load resource_uri s.g).calls = [] ∧
    (∀ e ∈ (on_resource_load resource_uri s.g).calls,
      e = Effect.print_stdout ("Loading resource: " ++ resource_uri ++ "\n")) ∧
    ∃ s1, step s (Event.resource_load resource_uri) = some s1 ∧
      s1.g = { s.g with watchdogValue := 0 } ∧ s1.clears = s.clears ∧
      s1.timers = s.timers ∧ fires s1.trace = fires s.trace ∧
      sessionStarts s1.trace = sessionStarts s.trace := by
  refine ⟨rfl, rfl, rfl, by simp [on_resource_load, Globals.config], ?_, ?_,
    s.after (on_resource_load resource_uri s.g), rfl, step_resource_load s _ _ rfl⟩
  · by_cases hd : s.g.debug = 0 <;>
      simp [on_resource_load, hd, sessionStarts, Effect.isSessionStart]
  · by_cases hd : s.g.debug = 0 <;> simp [on_resource_load, hd]

/-- C7: on a permission request, when `kiosk` is set the handler makes exactly one
call, allow when `acceptAll` is set and deny when it is not, and returns TRUE; when
`kiosk` is not set it makes no call and returns FALSE, whatever `acceptAll` is.  No
global changes. -/
theorem on_permission_request_policy (g : Globals) :
    (g.kiosk ≠ 0 → g.acceptAll ≠ 0 →
      (on_permission_request g).calls = [Effect.permission_request_allow] ∧
      (on_permission_request g).val = true) ∧
    (g.kiosk ≠ 0 → g.acceptAll = 0 →
      (on_permission_request g).calls = [Effect.permission_request_deny] ∧
      (on_permission_request g).val = true) ∧
    (g.kiosk = 0 →
      (on_permission_request g).calls = [] ∧ (on_permission_request g).val = false) ∧
    (on_permission_request g).g = g := by
  unfold on_permission_request
  by_cases h1 : g.kiosk = 0 <;> by_cases h2 : g.acceptAll = 0 <;> simp [h1, h2]

/-- Instance of C7: after `--kiosk --accept-all` a permission request is allowed
and reported as handled. -/
theorem on_permission_request_policy_witness :
    (on_permission_request { initialGlobals with kiosk := 1, acceptAll := 1 }).calls =
      [Effect.permission_request_allow] ∧
    (on_permission_request { initialGlobals with kiosk := 1, acceptAll := 1 }).val = true :=
  (on_permission_request_policy { initialGlobals with kiosk := 1, acceptAll := 1 }).1
    (by decide) (by decide)

theorem eraseIdx_length_append (l : List String) (u : String) :
    (l ++ [u])[l.length]? = some u ∧ (l ++ [u]).eraseIdx l.length = l := by
  induction l with
  | nil => simp
  | cons x xs ih => simp [ih.2]

/-- C8: for every failing URI `u` and every value `r >= 0` of `rand()`, the
load-failure handler schedules exactly one timer, with `reload_timer` as callback
and `u` as its data, after `d = 2500 + (r mod 5000)` milliseconds, where
`2500 <= d <= 7499`; when that timer expires it issues exactly one `loadURI(u)`,
returns FALSE and is gone from the outstanding timers. -/
theorem on_load_failed_schedules_one_reload (u : String) (r : Int) (s : Sys)
    (hr : 0 ≤ r) :
    (on_load_failed u r s.g).calls =
      [Effect.print_stderr ("Load failed. Reloading " ++ u ++ "\n"),
       Effect.timeout_add_reload (2500 + r.toNat % 5000) u] ∧
    2500 ≤ 2500 + r.toNat % 5000 ∧ 2500 + r.toNat % 5000 ≤ 7499 ∧
    (on_load_failed u r s.g).g = s.g ∧ (on_load_failed u r s.g).val = true ∧
    (reload_timer u s.g).calls = [Effect.load_uri u] ∧
    (reload_timer u s.g).val = false ∧ (reload_timer u s.g).g = s.g ∧
    ∃ s1 s2, step s (Event.load_failed u r.toNat) = some s1 ∧
      s1.timers = s.timers ++ [u] ∧ s1.clears = s.clears ∧ s1.g = s.g ∧
      step s1 (Event.reload_timer s.timers.length) = some s2 ∧
      s2.timers = s.timers ∧ s2.trace = s1.trace ++ [Effect.load_uri u] ∧ s2.g = s.g := by
  have hi := reload_interval_eq r hr
  have hnat : ((r.toNat : Nat) : Int) = r := Int.toNat_of_nonneg hr
  have he := eraseIdx_length_append s.timers u
  have ht : (s.after (on_load_failed u r s.g)).timers = s.timers ++ [u] := by
    simp [Sys.after, on_load_failed, timersOf]
  have hc : (s.after (on_load_failed u r s.g)).clears = s.clears := by
    simp [Sys.after, on_load_failed, clearsOf]
  have h2 : step (s.after (on_load_failed u r s.g)) (Event.reload_timer s.timers.length) =
      some (Sys.after { s.after (on_load_failed u r s.g) with timers := s.timers }
        (reload_timer u s.g)) := by
    simp only [step, ht, he.1, he.2]
    rfl
  refine ⟨by simp [on_load_failed, hi], by omega, by omega, rfl, rfl, rfl, rfl, rfl,
    s.after (on_load_failed u r s.g), _, ?_, ht, hc, rfl, h2, ?_, ?_, rfl⟩
  · simp only [step, hnat]
  · simp [Sys.after, reload_timer, timersOf]
  · simp [Sys.after, reload_timer]

/-- Instance of C8: a load failure of `https://x.test/` with `rand()` returning
12345 schedules the reload of that URI after 4845 ms. -/
theorem on_load_failed_schedules_one_reload_witness :
    (0 : Int) ≤ 12345 ∧
    (on_load_failed "https://x.test/" 12345 initialGlobals).calls =
      [Effect.print_stderr ("Load failed. Reloading " ++ "https://x.test/" ++ "\n"),
       Effect.timeout_add_reload (2500 + (12345 : Int).toNat % 5000) "https://x.test/"] :=
  ⟨by decide,
   (on_load_failed_schedules_one_reload "https://x.test/" 12345 ⟨initialGlobals, [], [], []⟩
      (by decide)).1⟩

/-- C1: for a configured `watchdogTimeout >= 2` and every state the program reaches
from start-up (by ticks, resource loads, load failures and their reloads, clear
completions and the other signals) in which the watchdog is running: a periodic
tick triggers `startNewSession(baseUri, watchdogReset)` if and only if the counter
equals `watchdogTimeout - 1` when the tick starts.  Below that value the tick only
adds one to the counter and starts nothing; at that value the counter is 0 after
the tick.  The counter is never above that value. -/
theorem watchdog_triggers_iff_counter_at_timeout_minus_one
    (results : List GetoptResult) (s0 s : Sys) (evs : List Event)
    (active : Bool) (title : String)
    (hmain : main results = .ok s0) (hT : 2 ≤ s0.g.watchdogTimeout)
    (hrun : run s0 evs = some s) (hrunning : s.g.watchdogRunning ≠ 0) :
    s.g.watchdogTimeout = s0.g.watchdogTimeout ∧
    s.g.watchdogValue ≤ s0.g.watchdogTimeout - 1 ∧
    (Triggers (periodic_check active title s.g).calls s0.g.baseUri s0.g.watchdogReset s.g ↔
      s.g.watchdogValue = s0.g.watchdogTimeout - 1) ∧
    (s.g.watchdogValue < s0.g.watchdogTimeout - 1 →
      fires (periodic_check active title s.g).calls = 0 ∧
      sessionStarts (periodic_check active title s.g).calls = [] ∧
      (periodic_check active title s.g).g.watchdogValue = s.g.watchdogValue + 1) ∧
    (s.g.watchdogValue = s0.g.watchdogTimeout - 1 →
      fires (periodic_check active title s.g).calls = 1 ∧
      sessionStarts (periodic_check active title s.g).calls =
        [sessionStartCall s0.g.baseUri s0.g.watchdogReset] ∧
      (periodic_check active title s.g).g.watchdogValue = 0) := by
  have hsound := run_sound evs s0 s (main_sound results s0 hmain) hrun
  have hcfg := config_fields _ _ (run_config evs s0 s hrun)
  have hTeq : s.g.watchdogTimeout = s0.g.watchdogTimeout := hcfg.2.2.2.2.2.1
  have hle := hsound.value_le
  have hlt := hsound.timeout_lt
  rw [hTeq] at hle hlt
  have h1 : s.g.watchdogTimeout ≠ 0 := by omega
  have hu : usub s.g.watchdogTimeout 1 = s0.g.watchdogTimeout - 1 := by
    rw [hTeq]; exact usub_one (by omega) hlt
  rw [← hcfg.2.2.2.2.2.2.2.2.2.2.1, ← hcfg.2.2.2.2.2.2.1]
  refine ⟨hTeq, hle, ⟨?_, ?_⟩, ?_, ?_⟩
  · intro htr
    by_contra hne
    have hc := tick_count active title s.g h1 hrunning (by rw [hu]; omega)
    rw [triggers_fires _ _ _ _ htr] at hc
    exact absurd hc.1 (by decide)
  · intro heq
    exact (tick_expire active title s.g h1 hrunning (by rw [hu]; omega)).1
  · intro hless
    have hc := tick_count active title s.g h1 hrunning (by rw [hu]; exact hless)
    exact ⟨hc.1, hc.2.1, by rw [hc.2.2]⟩
  · intro heq
    have he := tick_expire active title s.g h1 hrunning (by rw [hu]; omega)
    exact ⟨he.2.1, he.2.2.1, he.2.2.2⟩

/-- Instance of C1: with `--watchdog 5`, four ticks after start-up the counter is 4
and the next tick triggers the session start. -/
theorem watchdog_triggers_iff_counter_at_timeout_minus_one_witness :
    ∃ s0 s, main [⟨'w', "5"⟩] = .ok s0 ∧ 2 ≤ s0.g.watchdogTimeout ∧
      run s0 (List.replicate 4 (Event.tick true "")) = some s ∧ s.g.watchdogValue = 4 ∧
      Triggers (periodic_check true "" s.g).calls s0.g.baseUri s0.g.watchdogReset s.g :=
  ⟨_, _, rfl, by decide, rfl, rfl,
    (watchdog_triggers_iff_counter_at_timeout_minus_one [⟨'w', "5"⟩] _ _
      (List.replicate 4 (Event.tick true "")) true "" rfl (by decide) rfl
      (by decide)).2.2.1.mpr rfl⟩

/-- C2: for every timeout `T >= 2`, from any state in which the watchdog is running
and its counter is 0, as long as no resource load starts (whatever else is
dispatched): no watchdog trigger happens during the first `T - 1` ticks, after `k`
such ticks the counter is `k`, and the next tick triggers the reload
`startNewSession(baseUri, watchdogReset)` exactly when it is the `T`-th one. -/
theorem watchdog_first_trigger_on_Tth_tick (s s1 : Sys) (evs : List Event)
    (active : Bool) (title : String)
    (hT : 2 ≤ s.g.watchdogTimeout) (hlt : s.g.watchdogTimeout < UINT_MOD)
    (hrunning : s.g.watchdogRunning ≠ 0) (hzero : s.g.watchdogValue = 0)
    (hno : ∀ e ∈ evs, e.isResourceLoad = false) (hrun : run s evs = some s1)
    (hk : ticks evs < s.g.watchdogTimeout) :
    fires s1.trace = fires s.trace ∧ s1.g.watchdogValue = ticks evs ∧
    s1.g.watchdogRunning ≠ 0 ∧
    (Triggers (periodic_check active title s1.g).calls s.g.baseUri s.g.watchdogReset s1.g ↔
      ticks evs + 1 = s.g.watchdogTimeout) ∧
    (ticks evs + 1 < s.g.watchdogTimeout →
      fires (periodic_check active title s1.g).calls = 0 ∧
      sessionStarts (periodic_check active title s1.g).calls = []) ∧
    (ticks evs + 1 = s.g.watchdogTimeout →
      fires (periodic_check active title s1.g).calls = 1 ∧
      sessionStarts (periodic_check active title s1.g).calls =
        [sessionStartCall s.g.baseUri s.g.watchdogReset] ∧
      (periodic_check active title s1.g).g.watchdogValue = 0) ∧
    ∃ s2, step s1 (Event.tick active title) = some s2 ∧
      (fires s2.trace = fires s.trace + 1 ↔ ticks evs + 1 = s.g.watchdogTimeout) := by
  obtain ⟨hv, hr1, hf⟩ := run_counts evs s s1 hno hrun hrunning hlt (by rw [hzero]; omega)
  rw [hzero, Nat.zero_add] at hv
  have hcfg := config_fields _ _ (run_config evs s s1 hrun)
  have hTeq : s1.g.watchdogTimeout = s.g.watchdogTimeout := hcfg.2.2.2.2.2.1
  have h1 : s1.g.watchdogTimeout ≠ 0 := by omega
  have hu : usub s1.g.watchdogTimeout 1 = s.g.watchdogTimeout - 1 := by
    rw [hTeq]; exact usub_one (by omega) hlt
  rw [← hcfg.2.2.2.2.2.2.2.2.2.2.1, ← hcfg.2.2.2.2.2.2.1]
  have hfs : fires (s1.after (periodic_check active title s1.g)).trace =
      fires s1.trace + fires (periodic_check active title s1.g).calls := by
    simp [Sys.after, fires_append]
  refine ⟨hf, hv, hr1, ⟨?_, ?_⟩, ?_, ?_, _, step_tick s1 active title, ?_⟩
  · intro htr
    by_contra hne
    have hc := tick_count active title s1.g h1 hr1 (by rw [hu, hv]; omega)
    rw [triggers_fires _ _ _ _ htr] at hc
    exact absurd hc.1 (by decide)
  · intro heq
    exact (tick_expire active title s1.g h1 hr1 (by rw [hu, hv]; omega)).1
  · intro hless
    have hc := tick_count active title s1.g h1 hr1 (by rw [hu, hv]; omega)
    exact ⟨hc.1, hc.2.1⟩
  · intro heq
    have he := tick_expire active title s1.g h1 hr1 (by rw [hu, hv]; omega)
    exact ⟨he.2.1, he.2.2.1, he.2.2.2⟩
  · rw [hfs, hf]
    constructor
    · intro h
      by_contra hne
      have hc := tick_count active title s1.g h1 hr1 (by rw [hu, hv]; omega)
      rw [hc.1] at h
      omega
    · intro heq
      rw [(tick_expire active title s1.g h1 hr1 (by rw [hu, hv]; omega)).2.1]

/-- Instance of C2: with timeout 3, after two ticks (and a load failure in between)
from a running watchdog at counter 0 the counter is 2 and the third tick triggers. -/
theorem watchdog_first_trigger_on_Tth_tick_witness :
    ∃ s1, run ⟨{ initialGlobals with watchdogTimeout := 3 }, [], [], []⟩
        [Event.tick true "", Event.load_failed "x" 1, Event.tick false ""] = some s1 ∧
      s1.g.watchdogValue = 2 ∧
      Triggers (periodic_check true "" s1.g).calls "http://127.0.0.1" 0 s1.g :=
  ⟨_, rfl, rfl,
    (watchdog_first_trigger_on_Tth_tick
      ⟨{ initialGlobals with watchdogTimeout := 3 }, [], [], []⟩ _
      [Event.tick true "", Event.load_failed "x" 1, Event.tick false ""] true ""
      (by decide) (by decide) (by decide) rfl (by decide) rfl (by decide)).2.2.2.1.mpr rfl⟩

theorem step_clear_completed_first (s : Sys) (u : String) (h : s.clears = [u]) :
    ∃ s2, step s (Event.clear_completed 0) = some s2 ∧ s2.g.watchdogRunning = 1 ∧
      s2.clears = [] ∧ sessionStarts s2.trace = sessionStarts s.trace ++ [Effect.load_uri u] := by
  have hs : step s (Event.clear_completed 0) =
      some (Sys.after { s with clears := s.clears.eraseIdx 0 }
        (websiteDataManagerClearCompleted u s.g)) := by
    simp [step, h]
  obtain ⟨v, hv, hg, hc, _, hss⟩ := step_clear_completed s _ 0 hs
  rw [h] at hv
  simp at hv
  subst hv
  exact ⟨_, hs, by rw [hg], by rw [hc, h]; rfl, hss⟩

/-- C4: in every state the program reaches from start-up (by ticks, resource loads,
load failures and their reloads, the session starts that `main` and the watchdog
make, clear completions and the other signals), the watchdog is suspended
(`watchdogRunning = 0`) exactly while a session clear is outstanding, at most one
clear is outstanding, and while one is a tick triggers nothing and changes no
global.  `startNewSession(uri, reset)` with `reset` set clears `watchdogRunning`,
starts one clear and calls no `loadURI`; the completion callback of that clear sets
`watchdogRunning` to 1 and loads exactly `uri`.  With `reset` not set it loads `uri`
at once and changes no global.  When the watchdog expires with `watchdogReset` set,
the tick suspends it with the one clear for `baseUri` outstanding, and the
completion resumes it and loads `baseUri`. -/
theorem watchdog_suspended_exactly_while_clearing
    (results : List GetoptResult) (s0 s : Sys) (evs : List Event)
    (active : Bool) (title uri : String) (reset : Nat) (g g1 : Globals)
    (hmain : main results = .ok s0) (hrun : run s0 evs = some s) :
    (s.g.watchdogRunning = 0 ↔ s.clears ≠ []) ∧
    s.clears.length ≤ 1 ∧
    (s.clears ≠ [] →
      fires (periodic_check active title s.g).calls = 0 ∧
      sessionStarts (periodic_check active title s.g).calls = [] ∧
      (periodic_check active title s.g).g = s.g) ∧
    (reset ≠ 0 →
      (startNewSession uri reset g).g = { g with watchdogRunning := 0 } ∧
      (∀ u, Effect.load_uri u ∉ (startNewSession uri reset g).calls) ∧
      sessionStarts (startNewSession uri reset g).calls = [Effect.data_manager_clear uri] ∧
      clearsOf (startNewSession uri reset g).calls = [uri]) ∧
    ((websiteDataManagerClearCompleted uri g1).g = { g1 with watchdogRunning := 1 } ∧
      sessionStarts (websiteDataManagerClearCompleted uri g1).calls = [Effect.load_uri uri] ∧
      clearsOf (websiteDataManagerClearCompleted uri g1).calls = []) ∧
    ((startNewSession uri 0 g).calls = [Effect.load_uri uri] ∧
      (startNewSession uri 0 g).g = g) ∧
    (s.g.watchdogReset ≠ 0 → fires (periodic_check active title s.g).calls = 1 →
      ∃ s1 s2, step s (Event.tick active title) = some s1 ∧
        s1.g.watchdogRunning = 0 ∧ s1.clears = [s.g.baseUri] ∧
        sessionStarts s1.trace =
          sessionStarts s.trace ++ [Effect.data_manager_clear s.g.baseUri] ∧
        step s1 (Event.clear_completed 0) = some s2 ∧
        s2.g.watchdogRunning = 1 ∧ s2.clears = [] ∧
        sessionStarts s2.trace = sessionStarts s1.trace ++ [Effect.load_uri s.g.baseUri]) := by
  have hsound := run_sound evs s0 s (main_sound results s0 hmain) hrun
  have hsum := tick_summary active title s.g
  have hcc := clearCompleted_spec uri g1
  refine ⟨hsound.suspended_iff, hsound.one_clear, ?_, ?_, ⟨hcc.1, hcc.2.1, hcc.2.2.1⟩, ?_, ?_⟩
  · intro hne
    have hidle := watchdog_block_idle s.g (Or.inr (hsound.suspended_iff.mpr hne))
    rw [hsum.1, hsum.2.1, hsum.2.2, hidle.1, hidle.2]
    simp [fires, sessionStarts]
  · intro hr
    have h := startNewSession_reset uri reset g hr
    refine ⟨h.1, ?_, h.2.1, h.2.2.1⟩
    intro u hu
    have hmem : Effect.load_uri u ∈ sessionStarts (startNewSession uri reset g).calls := by
      simp [sessionStarts, hu, Effect.isSessionStart]
    rw [h.2.1] at hmem
    simp at hmem
  · exact ⟨(startNewSession_plain uri g).2, (startNewSession_plain uri g).1⟩
  · intro hr hf
    rw [hsum.2.1] at hf
    rcases watchdog_block_cases s.g with ⟨_, _, hc⟩ | ⟨_, _, _, _, hc⟩ | ⟨h1, h2, h3, hg, hc⟩
    · rw [hc] at hf; simp [fires] at hf
    · rw [hc] at hf; simp [fires] at hf
    · have hst := startNewSession_reset s.g.baseUri s.g.watchdogReset s.g hr
      have hempty : s.clears = [] := by
        by_contra hne
        exact h2 (hsound.suspended_iff.mpr hne)
      obtain ⟨hag, hac, _⟩ := after_tick s active title
      have hcl : (s.after (periodic_check active title s.g)).clears = [s.g.baseUri] := by
        rw [hac, hc, hempty]
        simp [clearsOf, watchdogLine, hst.2.2.1]
      have hss : sessionStarts (s.after (periodic_check active title s.g)).trace =
          sessionStarts s.trace ++ [Effect.data_manager_clear s.g.baseUri] := by
        have he := (tick_expire active title s.g h1 h2 h3).2.2.1
        simp only [Sys.after, sessionStarts_append]
        rw [he]
        simp [sessionStartCall, hr]
      obtain ⟨s2, hs2, hrun2, hcl2, hss2⟩ := step_clear_completed_first _ _ hcl
      exact ⟨_, s2, step_tick s active title, by rw [hag, hg, hst.1], hcl, hss, hs2, hrun2,
        hcl2, hss2⟩

/-- Instance of C4: with `--watchdog-reset --watchdog 2`, two ticks after start-up a
clear for the home URI is outstanding and the watchdog is suspended. -/
theorem watchdog_suspended_exactly_while_clearing_witness :
    ∃ s0 s, main [⟨'r', ""⟩, ⟨'w', "2"⟩] = .ok s0 ∧
      run s0 [Event.tick true "", Event.tick true ""] = some s ∧
      s.clears = ["http://127.0.0.1"] ∧ s.g.watchdogRunning = 0 :=
  ⟨_, _, rfl, rfl, rfl,
    (watchdog_suspended_exactly_while_clearing [⟨'r', ""⟩, ⟨'w', "2"⟩] _ _
      [Event.tick true "", Event.tick true ""] true "" "" 0 initialGlobals initialGlobals
      rfl rfl).1.mpr
      (by decide)⟩

/-- C3 as stated fails: with `--uri https://example.test --watchdog 5` and no
resource load, after 4 ticks from start-up the watchdog has not triggered: the only
load of the home URI is the initial one made by `main`, the 4 ticks only set the
window title, and the counter is 4, not 0. -/
theorem watchdog5_untriggered_after_four_ticks :
    ∃ s0 s4, main [⟨'u', "https://example.test"⟩, ⟨'w', "5"⟩] = .ok s0 ∧
      s0.g.watchdogTimeout = 5 ∧ s0.g.baseUri = "https://example.test" ∧
      s0.g.watchdogReset = 0 ∧ s0.trace = [Effect.load_uri "https://example.test"] ∧
      run s0 (List.replicate 4 (Event.tick true "")) = some s4 ∧
      s4.trace = s0.trace ++ List.replicate 4 (Effect.window_set_title "") ∧
      fires s4.trace = 0 ∧ s4.g.watchdogValue = 4 ∧
      ¬ (fires s4.trace = 1 ∧ s4.g.watchdogValue = 0) :=
  ⟨_, _, rfl, rfl, rfl, rfl, rfl, rfl, rfl, by decide, rfl, by decide⟩

/-- C3 as amended: with `--uri https://example.test --watchdog 5` and no resource
load, whatever the window state and the page title at each tick, the first 4 ticks
after start-up trigger nothing (the counter is then 4 and the home URI has been
loaded only by `main`), and the 5th tick triggers the reload of the home URI exactly
once and leaves the counter at 0. -/
theorem watchdog5_triggers_on_fifth_tick (envs : List (Bool × String))
    (active : Bool) (title : String) (hlen : envs.length = 4) :
    ∃ s0 s4 s5, main [⟨'u', "https://example.test"⟩, ⟨'w', "5"⟩] = .ok s0 ∧
      run s0 (envs.map tickOf) = some s4 ∧
      fires s4.trace = 0 ∧ s4.g.watchdogValue = 4 ∧
      sessionStarts s4.trace = [Effect.load_uri "https://example.test"] ∧
      step s4 (Event.tick active title) = some s5 ∧
      run s0 (envs.map tickOf ++ [Event.tick active title]) = some s5 ∧
      fires s5.trace = 1 ∧ s5.g.watchdogValue = 0 ∧
      sessionStarts s5.trace =
        [Effect.load_uri "https://example.test", Effect.load_uri "https://example.test"] := by
  obtain ⟨s0, hmain⟩ :
      ∃ s0, main [⟨'u', "https://example.test"⟩, ⟨'w', "5"⟩] = .ok s0 := ⟨_, rfl⟩
  have hT : s0.g.watchdogTimeout = 5 := by
    injection hmain with h; subst h; rfl
  have hU : s0.g.baseUri = "https://example.test" := by
    injection hmain with h; subst h; rfl
  have hR : s0.g.watchdogReset = 0 := by
    injection hmain with h; subst h; rfl
  have hm := main_spec _ s0 hmain
  obtain ⟨s4, hrun, hg, _, hf, hss⟩ := run_ticks_counts envs s0 (by rw [hm.2.1]; decide)
    hm.2.2.1 (by rw [hm.1, hT, hlen]; decide)
  have hv4 : s4.g.watchdogValue = 4 := by rw [hg, hm.1, hlen]
  have hT4 : s4.g.watchdogTimeout = 5 := by rw [hg]; exact hT
  have h1 : s4.g.watchdogTimeout ≠ 0 := by rw [hT4]; decide
  have h2 : s4.g.watchdogRunning ≠ 0 := by rw [hg]; show s0.g.watchdogRunning ≠ 0; rw [hm.2.1]; decide
  have hu : usub s4.g.watchdogTimeout 1 = 4 := by rw [hT4]; decide
  have he := tick_expire active title s4.g h1 h2 (by rw [hu, hv4])
  have hf0 : fires s4.trace = 0 := by rw [hf, hm.2.2.2.2.2.2.2]; simp [fires, watchdogLine]
  have hss0 : sessionStarts s4.trace = [Effect.load_uri "https://example.test"] := by
    rw [hss, hm.2.2.2.2.2.2.2, hU]; rfl
  have hU4 : s4.g.baseUri = "https://example.test" := by rw [hg]; exact hU
  have hR4 : s4.g.watchdogReset = 0 := by rw [hg]; exact hR
  refine ⟨s0, s4, s4.after (periodic_check active title s4.g), hmain, hrun, hf0, hv4, hss0,
    rfl, ?_, ?_, he.2.2.2, ?_⟩
  · rw [run_append, hrun]; rfl
  · simp only [Sys.after, fires_append]
    rw [hf0, he.2.1]
  · simp only [Sys.after, sessionStarts_append]
    rw [hss0, he.2.2.1, hU4, hR4]; rfl

/-- Instance of amended C3: four ticks with the window active and an empty title,
then the fifth. -/
theorem watchdog5_triggers_on_fifth_tick_witness :
    ∃ s0 s4 s5, main [⟨'u', "https://example.test"⟩, ⟨'w', "5"⟩] = .ok s0 ∧
      run s0 (List.replicate 4 (Event.tick true "")) = some s4 ∧
      step s4 (Event.tick true "") = some s5 ∧
      fires s5.trace = 1 ∧ s5.g.watchdogValue = 0 :=
  match watchdog5_triggers_on_fifth_tick (List.replicate 4 (true, "")) true "" rfl with
  | ⟨s0, s4, s5, h0, h4, _, _, _, hs, _, hf, hv, _⟩ => ⟨s0, s4, s5, h0, h4, hs, hf, hv⟩

/-- C10 as stated fails: after `--hide-mouse`, a periodic tick applies no cursor to
the surface of the main window; its only cursor call is on the surface of the web
view. -/
theorem tick_sets_no_cursor_on_main_window :
    ∃ s0, main [⟨'m', ""⟩] = .ok s0 ∧ s0.g.hideMouse = 1 ∧
      cursorCalls (periodic_check true "" s0.g).calls =
        [Effect.set_cursor Surface.webView Cursor.blank] ∧
      Effect.set_cursor Surface.mainWindow Cursor.blank ∉ (periodic_check true "" s0.g).calls :=
  ⟨_, rfl, rfl, rfl, by decide⟩

/-- C10 as amended: in every state the program reaches from start-up, when
`hideMouse` is set a periodic tick applies the blank cursor to the surface of the
web view and to no other surface, and the window handler (`realize`,
`configure-event`) applies it to the surface of the main window and to no other;
when `hideMouse` is not set, neither applies any cursor. -/
theorem tick_hides_cursor_on_view_only
    (results : List GetoptResult) (s0 s : Sys) (evs : List Event)
    (active : Bool) (title : String)
    (hmain : main results = .ok s0) (hrun : run s0 evs = some s) :
    (s.g.hideMouse ≠ 0 →
      cursorCalls (periodic_check active title s.g).calls =
        [Effect.set_cursor Surface.webView Cursor.blank] ∧
      cursorCalls (on_window_changed s.g).calls =
        [Effect.set_cursor Surface.mainWindow Cursor.blank]) ∧
    (s.g.hideMouse = 0 →
      cursorCalls (periodic_check active title s.g).calls = [] ∧
      cursorCalls (on_window_changed s.g).calls = []) ∧
    s.g.hideMouse = s0.g.hideMouse := by
  have hsound := run_sound evs s0 s (main_sound results s0 hmain) hrun
  have hcfg := config_fields _ _ (run_config evs s0 s hrun)
  have hw := config_fields _ _ (watchdog_block_config s.g)
  have hcalls : cursorCalls (periodic_check active title s.g).calls =
      if s.g.hideMouse ≠ 0 then [Effect.set_cursor Surface.webView Cursor.blank] else [] := by
    rw [periodic_check_eq]
    simp only [cursorCalls, List.filter_append]
    have h1 := watchdog_block_cursorCalls s.g
    have h2 := tick_rest_cursorCalls active title (watchdog_block s.g).g
    simp only [cursorCalls] at h1 h2
    rw [h1, h2, hw.1, hw.2.2.2.2.1, hsound.cursor_blank]
    rfl
  have hwin := window_changed_cursorCalls s.g
  rw [hsound.cursor_blank] at hwin
  refine ⟨fun h => ?_, fun h => ?_, hcfg.2.2.2.2.1⟩
  · rw [hcalls, hwin]; simp [h]
  · rw [hcalls, hwin]; simp [h]

/-- Instance of amended C10: after `--hide-mouse` and one tick, the next tick
applies the blank cursor to the web view. -/
theorem tick_hides_cursor_on_view_only_witness :
    ∃ s0 s, main [⟨'m', ""⟩] = .ok s0 ∧ run s0 [Event.tick true ""] = some s ∧
      cursorCalls (periodic_check false "t" s.g).calls =
        [Effect.set_cursor Surface.webView Cursor.blank] :=
  ⟨_, _, rfl, rfl,
    ((tick_hides_cursor_on_view_only [⟨'m', ""⟩] _ _ [Event.tick true ""] false "t"
      rfl rfl).1 (by decide)).1⟩

/-- C9, the defect: eleven of the twelve long options take an argument exactly when
their short form does, but the table gives `nocache` `required_argument` while `c`
has no colon in the option string.  So `--nocache --kiosk` takes `--kiosk` as the
argument of `--nocache` and kiosk mode stays off, where `-c --kiosk` sets both
options; and a final `--nocache` ends in `usage`. -/
theorem nocache_long_form_requires_argument :
    (∀ o ∈ long_options, o.name ≠ "nocache" →
      shortHasArg optstring.toList o.val = some o.has_arg) ∧
    (long_options.filter (fun o => o.has_arg = HasArg.required_argument)).map
      (fun o => o.name) = ["watchdog", "base-dir", "uri", "nocache"] ∧
    findLong long_options "nocache" = some ⟨"nocache", HasArg.required_argument, 'c'⟩ ∧
    shortHasArg optstring.toList 'c' = some HasArg.no_argument ∧
    getopt_long none ["--nocache", "--kiosk"] = [⟨'c', "--kiosk"⟩] ∧
    getopt_long none ["-c", "--kiosk"] = [⟨'c', ""⟩, ⟨'k', ""⟩] ∧
    (∃ s, main (getopt_long none ["-c", "--kiosk"]) = .ok s ∧
      s.g.kiosk = 1 ∧ s.g.reduceCache = 1) ∧
    (∃ s, main (getopt_long none ["--nocache", "--kiosk"]) = .ok s ∧
      s.g.kiosk = 0 ∧ s.g.reduceCache = 1) ∧
    main (getopt_long none ["--nocache"]) = .error usage :=
  ⟨by decide, by decide, by decide, by decide, by decide, by decide,
    ⟨_, rfl, rfl, rfl⟩, ⟨_, rfl, rfl, rfl⟩, rfl⟩

end KioskBrowser
